import Mathlib

/-!
Verification development for the ESP32 RSSI indoor-positioning repository
(`app.py`, `appws.py`, `app_plot_2.py`, `app_plot_3.py`, `appplot.py`,
`filter_distance.py`, `rssitocoord.py`, `rssitodist.py`).

Modelling conventions.  Python floats are modelled as exact arithmetic:
values on which the code performs only field and order operations (RSSI
samples, timestamps, filter windows, the HTTP update handler) are modelled
as rationals, so concrete runs are decidable; values that flow through
`sqrt`, `log10` or `10 ** _` (distances, solver geometry, residuals) are
modelled as real numbers.  In this idealisation `np.isnan` is identically
false, so `isnan` guards in the sources are dropped.  Python exceptions are
modelled with `Except`/`Option` results.  `scipy.optimize.curve_fit`
(calibration) is an external numerical routine; functions that call it are
parameterised over its output `(A, n)` instead.
-/

set_option maxHeartbeats 1000000

/-! ## Moving average filter

`MovingAverageFilter` appears verbatim in `app.py`, `appws.py`, `appplot.py`,
`filter_distance.py`, `rssitodist.py` and `rssitocoord.py`: a FIFO window of
at most `window_size` samples (`append`, then `pop(0)` when the length
exceeds the size), returning `sum(window) / len(window)`. -/

structure MovingAverageFilter where
  window_size : ℕ
  window : List ℚ
deriving DecidableEq

def MovingAverageFilter.update (f : MovingAverageFilter) (value : ℚ) :
    MovingAverageFilter × ℚ :=
  let w := f.window ++ [value]
  let w2 := if f.window_size < w.length then w.tail else w
  (⟨f.window_size, w2⟩, w2.sum / w2.length)

def MovingAverageFilter.runAll (f : MovingAverageFilter) (xs : List ℚ) :
    MovingAverageFilter :=
  xs.foldl (fun g v => (g.update v).1) f

theorem MovingAverageFilter.runAll_window (k : ℕ) (xs : List ℚ) :
    ∀ win : List ℚ, win.length ≤ k →
      ((MovingAverageFilter.mk k win).runAll xs).window
        = (win ++ xs).drop ((win ++ xs).length - k) := by
  induction xs with
  | nil =>
    intro win h
    simp [MovingAverageFilter.runAll, Nat.sub_eq_zero_of_le h]
  | cons v xs ih =>
    intro win h
    have hstep : (MovingAverageFilter.mk k win).runAll (v :: xs)
        = (MovingAverageFilter.mk k ((MovingAverageFilter.mk k win).update v |>.1.window)).runAll xs := by
      simp [MovingAverageFilter.runAll, MovingAverageFilter.update]
    rw [hstep]
    rcases lt_or_eq_of_le h with hlt | heq
    · -- window not yet full: no element evicted
      have hcond : ¬ k < (win ++ [v]).length := by
        simp [List.length_append]; omega
      have hwin : ((MovingAverageFilter.mk k win).update v).1.window = win ++ [v] := by
        simp only [MovingAverageFilter.update]
        rw [if_neg hcond]
      rw [hwin]
      have := ih (win ++ [v]) (by simp [List.length_append]; omega)
      rw [this]
      simp [List.append_assoc]
    · -- window full: oldest element evicted (pop(0) = tail)
      have hcond : k < (win ++ [v]).length := by
        simp [List.length_append]; omega
      have hwin : ((MovingAverageFilter.mk k win).update v).1.window = (win ++ [v]).tail := by
        simp only [MovingAverageFilter.update]
        rw [if_pos hcond]
      rw [hwin]
      have hlen : ((win ++ [v]).tail).length ≤ k := by
        simp [List.length_append]; omega
      rw [ih _ hlen]
      have htail : (win ++ [v]).tail = (win ++ [v]).drop 1 := by
        simp
      have hone : (1 : ℕ) ≤ (win ++ [v]).length := by
        simp [List.length_append]
      have hassoc : win ++ v :: xs = (win ++ [v]) ++ xs := by simp
      have h1 : ((win ++ [v]).drop 1 ++ xs).length - k = xs.length := by
        simp [List.length_append]; omega
      have h2 : ((win ++ [v]) ++ xs).length - k = xs.length + 1 := by
        simp [List.length_append]; omega
      rw [htail, h1, ← List.drop_append_of_le_length hone, List.drop_drop, hassoc, h2,
        Nat.add_comm]

/-- C9: `MovingAverageFilter(windowSize).update` keeps exactly the last
`windowSize` samples (FIFO, oldest evicted first once the window is full),
returns the arithmetic mean of the current window contents, and the first
call returns the single sample itself. -/
theorem movingAverage_fifo_mean (k : ℕ) (hk : 1 ≤ k) :
    (∀ xs : List ℚ,
        ((MovingAverageFilter.mk k []).runAll xs).window
          = xs.drop (xs.length - k))
    ∧ (∀ (f : MovingAverageFilter) (v : ℚ),
        (f.update v).2 = (f.update v).1.window.sum / (f.update v).1.window.length)
    ∧ (∀ v : ℚ, ((MovingAverageFilter.mk k []).update v).2 = v) := by
  refine ⟨fun xs => ?_, fun f v => ?_, fun v => ?_⟩
  · have := MovingAverageFilter.runAll_window k xs [] (by simp)
    simpa using this
  · simp [MovingAverageFilter.update]
  · have hk0 : ¬ k = 0 := by omega
    simp [MovingAverageFilter.update, hk0]

/-- Witness for C9 at `windowSize = 2` and the sample stream `[1, 2, 3]`. -/
theorem movingAverage_fifo_mean_witness :
    ((MovingAverageFilter.mk 2 []).runAll [1, 2, 3]).window = [2, 3]
    ∧ ((MovingAverageFilter.mk 2 []).update 7).2 = 7 := by
  constructor
  · have h := (movingAverage_fifo_mean 2 (by norm_num)).1 [1, 2, 3]
    simpa using h
  · exact (movingAverage_fifo_mean 2 (by norm_num)).2.2 7

/-! ## Path-loss model and RSSI-to-distance conversion

From `filter_distance.py` (`path_loss_model`, `rssi_to_distance`); the same
formulas appear inline in `app.py`, `appws.py`, `app_plot_2.py` and
`app_plot_3.py`, where `(A, n)` comes from `calibrate_path_loss`
(`scipy.optimize.curve_fit`); here `(A, n)` are parameters. -/

noncomputable def path_loss_model (d A n : ℝ) : ℝ :=
  A - 10 * n * Real.logb 10 d

noncomputable def rssi_to_distance (rssi_filtered A n : ℝ) : ℝ :=
  (10 : ℝ) ^ ((A - rssi_filtered) / (10 * n))

/-- C7: for every `A`, every `n ≠ 0` and every `d > 0`, converting `d` to an
RSSI with the path-loss model `A - 10·n·log10 d` and converting that RSSI
back with `10 ^ ((A - rssi) / (10·n))` yields `d` again (exactly, in the
real-number model of float arithmetic). -/
theorem rssi_distance_roundtrip (A n d : ℝ) (hn : n ≠ 0) (hd : 0 < d) :
    rssi_to_distance (path_loss_model d A n) A n = d := by
  unfold rssi_to_distance path_loss_model
  have h10 : (10 : ℝ) * n ≠ 0 := mul_ne_zero (by norm_num) hn
  rw [show A - (A - 10 * n * Real.logb 10 d) = Real.logb 10 d * (10 * n) by ring,
    mul_div_assoc, div_self h10, mul_one]
  exact Real.rpow_logb (by norm_num) (by norm_num) hd

/-- Witness for C7 at `A = -59`, `n = 2`, `d = 4`. -/
theorem rssi_distance_roundtrip_witness :
    rssi_to_distance (path_loss_model 4 (-59) 2) (-59) 2 = 4 :=
  rssi_distance_roundtrip (-59) 2 4 (by norm_num) (by norm_num)

/-! ## Shared anchor state

`esp_data` in `app.py`, `appws.py`, `app_plot_2.py` and `app_plot_3.py` maps
each of the keys `rssi1`, `rssi2`, `rssi3` to a record with a list of
received values and the timestamp of the latest update. -/

structure AnchorEntry where
  value : List ℚ
  timestamp : ℚ
deriving DecidableEq

structure EspData where
  rssi1 : AnchorEntry
  rssi2 : AnchorEntry
  rssi3 : AnchorEntry
deriving DecidableEq

/-! ## The /rssi POST handler of app.py

`update_data` (`app.py` lines 144-166; `rssitocoord.py` has the same logic
storing a scalar instead of a list).  A JSON value is modelled by the shape
relevant to Python's `float(...)`: a number or boolean converts, a string
converts exactly when `float` can parse it (the model carries that parse
result), and `None`, arrays and objects raise `TypeError`, which the
handler's `except ValueError` does not catch. -/

namespace App

inductive JVal where
  | num (q : ℚ)
  | boolean (b : Bool)
  | str (parsed : Option ℚ)
  | null
  | arr
  | obj
deriving DecidableEq

inductive PyErr where
  | valueError
  | typeError
deriving DecidableEq

def pyFloat : JVal → Except PyErr ℚ
  | .num q => .ok q
  | .boolean b => .ok (if b then 1 else 0)
  | .str (some q) => .ok q
  | .str none => .error .valueError
  | .null => .error .typeError
  | .arr => .error .typeError
  | .obj => .error .typeError

structure Request where
  rssi1 : Option JVal
  rssi2 : Option JVal
  rssi3 : Option JVal

/-- One iteration of the key loop in `update_data`: result entry, whether
`updated_keys` gained the key, and whether an uncaught `TypeError` was
raised (the `try` only catches `ValueError`). -/
def applyKey (entry : AnchorEntry) (v : Option JVal) (now : ℚ) :
    AnchorEntry × Bool × Bool :=
  match v with
  | none => (entry, false, false)
  | some jv =>
    match pyFloat jv with
    | .ok q => (⟨entry.value ++ [q], now⟩, true, false)
    | .error .valueError => (entry, false, false)
    | .error .typeError => (entry, false, true)

/-- `update_data` of `app.py`.  The second component is the HTTP status:
`some 200` / `some 400` as in the source, `none` when an uncaught
`TypeError` escapes the handler (Flask then produces a 500, and the
mutations made before the raise are kept in the global `esp_data`). -/
def update_data (st : EspData) (req : Request) (now : ℚ) : EspData × Option ℕ :=
  let a1 := applyKey st.rssi1 req.rssi1 now
  if a1.2.2 then ({ st with rssi1 := a1.1 }, none) else
  let a2 := applyKey st.rssi2 req.rssi2 now
  if a2.2.2 then ({ st with rssi1 := a1.1, rssi2 := a2.1 }, none) else
  let a3 := applyKey st.rssi3 req.rssi3 now
  if a3.2.2 then (⟨a1.1, a2.1, a3.1⟩, none) else
  (⟨a1.1, a2.1, a3.1⟩, some (if a1.2.1 || a2.2.1 || a3.2.1 then 200 else 400))

/-- A value whose `float(...)` conversion cannot raise `TypeError`
(numbers, booleans and strings; `null`, arrays and objects do raise it). -/
def benignVal : Option JVal → Bool
  | some .null => false
  | some .arr => false
  | some .obj => false
  | _ => true

end App

namespace App

/-- The per-key outcome the loop body of `update_data` produces when it does
not raise: a successful conversion appends the parsed value and refreshes
the timestamp, a failed conversion (or an absent key) leaves the entry
untouched. -/
def keyOutcome (entry : AnchorEntry) (v : Option JVal) (now : ℚ)
    (result : AnchorEntry) : Prop :=
  match v with
  | none => result = entry
  | some jv =>
    match pyFloat jv with
    | .ok q => result = ⟨entry.value ++ [q], now⟩
    | .error _ => result = entry

theorem applyKey_no_typeError (entry : AnchorEntry) (v : Option JVal) (now : ℚ)
    (h : benignVal v = true) : (applyKey entry v now).2.2 = false := by
  rcases v with _ | jv
  · rfl
  · rcases jv with q | b | p | _ | _ | _
    · rfl
    · rfl
    · rcases p with _ | q
      · rfl
      · rfl
    · simp [benignVal] at h
    · simp [benignVal] at h
    · simp [benignVal] at h

theorem applyKey_outcome (entry : AnchorEntry) (v : Option JVal) (now : ℚ) :
    keyOutcome entry v now (applyKey entry v now).1 := by
  rcases v with _ | jv
  · rfl
  · rcases jv with q | b | p | _ | _ | _
    · simp [keyOutcome, applyKey, pyFloat]
    · simp [keyOutcome, applyKey, pyFloat]
    · rcases p with _ | q
      · simp [keyOutcome, applyKey, pyFloat]
      · simp [keyOutcome, applyKey, pyFloat]
    · simp [keyOutcome, applyKey, pyFloat]
    · simp [keyOutcome, applyKey, pyFloat]
    · simp [keyOutcome, applyKey, pyFloat]

theorem applyKey_not_updated (entry : AnchorEntry) (v : Option JVal) (now : ℚ)
    (h : (applyKey entry v now).2.1 = false) : (applyKey entry v now).1 = entry := by
  rcases v with _ | jv
  · rfl
  · rcases jv with q | b | p | _ | _ | _
    · simp [applyKey, pyFloat] at h
    · simp [applyKey, pyFloat] at h
    · rcases p with _ | q
      · rfl
      · simp [applyKey, pyFloat] at h
    · rfl
    · rfl
    · rfl

end App

/-- C10 counterexample: `update_data` does not skip a key whose `float(...)`
raises `TypeError` (only `ValueError` is caught).  In the request
`{rssi1: null, rssi2: -50}` the value of `rssi2` converts successfully, yet
the handler raises on `rssi1` first: no key is updated and no 200/400
response is produced, contradicting the claim as stated. -/
theorem update_data_typeError_cex :
    (App.applyKey ⟨[], 0⟩ (some (App.JVal.num (-50))) 10).2.1 = true
    ∧ App.update_data ⟨⟨[], 0⟩, ⟨[], 0⟩, ⟨[], 0⟩⟩
        ⟨some App.JVal.null, some (App.JVal.num (-50)), none⟩ 10
      = (⟨⟨[], 0⟩, ⟨[], 0⟩, ⟨[], 0⟩⟩, none) := by
  constructor
  · decide
  · decide

/-- C10 (amended): for every JSON POST to /rssi whose present values are
numbers, booleans or strings (so that `float(...)` can only raise
`ValueError`, the exception the handler catches), exactly those keys among
rssi1-rssi3 whose values convert to float are updated (a failing key is
skipped and does not prevent another key's update); the handler responds
200 when at least one key was updated and 400 with the state unchanged when
none was.  (A null/array/object value instead raises an uncaught
`TypeError`: later keys are not processed and neither 200 nor 400 is
returned.) -/
theorem update_data_amended (st : EspData) (req : App.Request) (now : ℚ)
    (h1 : App.benignVal req.rssi1 = true) (h2 : App.benignVal req.rssi2 = true)
    (h3 : App.benignVal req.rssi3 = true) :
    App.keyOutcome st.rssi1 req.rssi1 now (App.update_data st req now).1.rssi1
    ∧ App.keyOutcome st.rssi2 req.rssi2 now (App.update_data st req now).1.rssi2
    ∧ App.keyOutcome st.rssi3 req.rssi3 now (App.update_data st req now).1.rssi3
    ∧ (App.update_data st req now).2
        = some (if (App.applyKey st.rssi1 req.rssi1 now).2.1
              || (App.applyKey st.rssi2 req.rssi2 now).2.1
              || (App.applyKey st.rssi3 req.rssi3 now).2.1 then 200 else 400)
    ∧ ((App.update_data st req now).2 = some 400 → (App.update_data st req now).1 = st) := by
  have e1 := App.applyKey_no_typeError st.rssi1 req.rssi1 now h1
  have e2 := App.applyKey_no_typeError st.rssi2 req.rssi2 now h2
  have e3 := App.applyKey_no_typeError st.rssi3 req.rssi3 now h3
  have hres : App.update_data st req now
      = (⟨(App.applyKey st.rssi1 req.rssi1 now).1,
          (App.applyKey st.rssi2 req.rssi2 now).1,
          (App.applyKey st.rssi3 req.rssi3 now).1⟩,
         some (if (App.applyKey st.rssi1 req.rssi1 now).2.1
              || (App.applyKey st.rssi2 req.rssi2 now).2.1
              || (App.applyKey st.rssi3 req.rssi3 now).2.1 then 200 else 400)) := by
    unfold App.update_data
    simp only [e1, e2, e3, Bool.false_eq_true, if_false]
  refine ⟨?_, ?_, ?_, ?_, ?_⟩
  · rw [hres]; exact App.applyKey_outcome st.rssi1 req.rssi1 now
  · rw [hres]; exact App.applyKey_outcome st.rssi2 req.rssi2 now
  · rw [hres]; exact App.applyKey_outcome st.rssi3 req.rssi3 now
  · rw [hres]
  · rw [hres]
    intro h400
    have hu : ((App.applyKey st.rssi1 req.rssi1 now).2.1
        || (App.applyKey st.rssi2 req.rssi2 now).2.1
        || (App.applyKey st.rssi3 req.rssi3 now).2.1) = false := by
      by_contra hcon
      rw [Bool.not_eq_false] at hcon
      simp [hcon] at h400
    simp at hu
    obtain ⟨⟨hu1, hu2⟩, hu3⟩ := hu
    obtain ⟨s1, s2, s3⟩ := st
    simp only [App.applyKey_not_updated _ _ _ hu1, App.applyKey_not_updated _ _ _ hu2,
      App.applyKey_not_updated _ _ _ hu3]

/-- Witness for C10 (amended) at the request `{rssi1: -42, rssi2: "abc"}`
(an unparsable string): rssi1 is updated, the string is skipped, and the
handler answers 200. -/
theorem update_data_amended_witness :
    (App.update_data ⟨⟨[], 0⟩, ⟨[], 0⟩, ⟨[], 0⟩⟩
        ⟨some (App.JVal.num (-42)), some (App.JVal.str none), none⟩ 7).2 = some 200
    ∧ (App.update_data ⟨⟨[], 0⟩, ⟨[], 0⟩, ⟨[], 0⟩⟩
        ⟨some (App.JVal.num (-42)), some (App.JVal.str none), none⟩ 7).1.rssi1
      = ⟨[-42], 7⟩ := by
  have h := update_data_amended ⟨⟨[], 0⟩, ⟨[], 0⟩, ⟨[], 0⟩⟩
    ⟨some (App.JVal.num (-42)), some (App.JVal.str none), none⟩ 7
    (by decide) (by decide) (by decide)
  refine ⟨?_, ?_⟩
  · rw [h.2.2.2.1]; decide
  · have h1 := h.1
    simpa [App.keyOutcome, App.pyFloat] using h1

/-! ## Broadcast loops

`app_plot_3.py` (lines 470-477 and 502-509) iterates over the snapshot
`browser_clients[:]`, sends the serialized payload to each client and, when
`send` raises, removes that client from the live list (guarded by a
membership test, i.e. remove-first-occurrence, total).  `appws.py`
(lines 154-162 and 192-199) has the same loop but the removal is commented
out: a failed send is only logged.  The delivery outcome of a send is
abstracted as `sendOk`. -/

namespace AppPlot3

def broadcast_loop {α : Type} [DecidableEq α] (sendOk : α → Bool)
    (clients : List α) : List α × List α :=
  clients.foldl
    (fun acc c => if sendOk c then (acc.1 ++ [c], acc.2) else (acc.1, acc.2.erase c))
    ([], clients)

theorem broadcast_loop_aux_p3 {α : Type} [DecidableEq α] (sendOk : α → Bool)
    (snap : List α) :
    ∀ d live : List α,
      snap.foldl
        (fun acc c => if sendOk c then (acc.1 ++ [c], acc.2) else (acc.1, acc.2.erase c))
        (d, live)
      = (d ++ snap.filter sendOk,
         (snap.filter fun c => !sendOk c).foldl (fun l c => l.erase c) live) := by
  induction snap with
  | nil => intro d live; simp
  | cons a snap ih =>
    intro d live
    by_cases h : sendOk a = true
    · simp only [List.foldl_cons, h, if_true, List.filter_cons]
      rw [ih]
      simp [h]
    · have h2 : sendOk a = false := by simp at h; exact h
      simp only [List.foldl_cons, h2, Bool.false_eq_true, if_false, List.filter_cons]
      rw [ih]
      simp [h2]

end AppPlot3

namespace AppWs

def broadcast_loop {α : Type} [DecidableEq α] (sendOk : α → Bool)
    (clients : List α) : List α × List α :=
  clients.foldl
    (fun acc c => if sendOk c then (acc.1 ++ [c], acc.2) else acc)
    ([], clients)

theorem broadcast_loop_aux_ws {α : Type} [DecidableEq α] (sendOk : α → Bool)
    (snap : List α) :
    ∀ d live : List α,
      snap.foldl (fun acc c => if sendOk c then (acc.1 ++ [c], acc.2) else acc) (d, live)
      = (d ++ snap.filter sendOk, live) := by
  induction snap with
  | nil => intro d live; simp
  | cons a snap ih =>
    intro d live
    by_cases h : sendOk a = true
    · simp only [List.foldl_cons, h, if_true, List.filter_cons]
      rw [ih]
      simp [h]
    · have h2 : sendOk a = false := by simp at h; exact h
      simp only [List.foldl_cons, h2, Bool.false_eq_true, if_false, List.filter_cons]
      rw [ih]

end AppWs

theorem foldl_erase_cons {α : Type} [DecidableEq α] (fs : List α) :
    ∀ (a : α) (l : List α), a ∉ fs →
      fs.foldl (fun acc c => acc.erase c) (a :: l)
        = a :: fs.foldl (fun acc c => acc.erase c) l := by
  induction fs with
  | nil => intro a l _; rfl
  | cons b fs ih =>
    intro a l ha
    have hba : b ≠ a := by
      intro hba
      exact ha (by simp [hba])
    have hafs : a ∉ fs := fun hmem => ha (by simp [hmem])
    simp only [List.foldl_cons]
    rw [List.erase_cons_tail (by simp only [beq_iff_eq]; exact fun hh => hba hh.symm)]
    exact ih a (l.erase b) hafs

theorem foldl_erase_filter {α : Type} [DecidableEq α] (P : α → Bool) :
    ∀ l : List α, l.Nodup →
      (l.filter fun c => !P c).foldl (fun acc c => acc.erase c) l = l.filter P := by
  intro l
  induction l with
  | nil => intro _; rfl
  | cons a l ih =>
    intro hnd
    have ha : a ∉ l := (List.nodup_cons.mp hnd).1
    have hl : l.Nodup := (List.nodup_cons.mp hnd).2
    by_cases h : P a = true
    · have hfil : ((a :: l).filter fun c => !P c) = l.filter fun c => !P c := by
        simp [List.filter_cons, h]
      rw [hfil]
      have hafs : a ∉ l.filter fun c => !P c := fun hmem => ha (List.mem_of_mem_filter hmem)
      rw [foldl_erase_cons _ a l hafs, ih hl]
      simp [List.filter_cons, h]
    · have h2 : P a = false := by simp at h; exact h
      have hfil : ((a :: l).filter fun c => !P c) = a :: l.filter fun c => !P c := by
        simp [List.filter_cons, h2]
      rw [hfil]
      simp only [List.foldl_cons, List.erase_cons_head]
      rw [ih hl]
      simp [List.filter_cons, h2]

/-- C5 counterexample: in `appws.py` the broadcast loop catches a failed
send but the removal is commented out, so publishing to the 3 subscribers
`[0, 1, 2]` where subscriber `1` fails still delivers to the other 2 but
leaves a subscriber set of size 3, not 2 as the claim states. -/
theorem broadcast_failed_not_removed_cex :
    (AppWs.broadcast_loop (fun c => decide (c ≠ 1)) [0, 1, 2]).1 = [0, 2]
    ∧ (AppWs.broadcast_loop (fun c => decide (c ≠ 1)) [0, 1, 2]).2 = [0, 1, 2]
    ∧ ¬ (AppWs.broadcast_loop (fun c => decide (c ≠ 1)) [0, 1, 2]).2.length = 2 := by
  refine ⟨by decide, by decide, by decide⟩

/-- C5 (amended): during a single publish the payload is sent to every
subscriber in the snapshot of the set.  In `app_plot_3.py` every subscriber
whose send fails is removed within that same publish call (3 subscribers
with one failure: the other 2 are delivered and the set has size 2
afterwards); in `appws.py` the failure is caught and logged but the
subscriber is not removed (the other 2 are still delivered and the set
keeps size 3). -/
theorem broadcast_amended {α : Type} [DecidableEq α] (sendOk : α → Bool)
    (clients : List α) (h : clients.Nodup) :
    AppPlot3.broadcast_loop sendOk clients
      = (clients.filter sendOk, clients.filter sendOk)
    ∧ AppWs.broadcast_loop sendOk clients = (clients.filter sendOk, clients) := by
  constructor
  · unfold AppPlot3.broadcast_loop
    rw [AppPlot3.broadcast_loop_aux_p3]
    rw [foldl_erase_filter sendOk clients h]
    simp
  · unfold AppWs.broadcast_loop
    rw [AppWs.broadcast_loop_aux_ws]
    simp

/-- Witness for C5 (amended) with subscribers `[0, 1, 2]` where subscriber
`1` fails. -/
theorem broadcast_amended_witness :
    AppPlot3.broadcast_loop (fun c => decide (c ≠ 1)) [0, 1, 2] = ([0, 2], [0, 2])
    ∧ AppWs.broadcast_loop (fun c => decide (c ≠ 1)) [0, 1, 2] = ([0, 2], [0, 1, 2]) := by
  have h := broadcast_amended (fun c => decide (c ≠ 1)) [0, 1, 2] (by decide)
  refine ⟨?_, ?_⟩
  · rw [h.1]; decide
  · rw [h.2]; decide

/-! ## Position solver

From `app_plot_2.py` (lines 32-146) and `app_plot_3.py` (lines 30-92):
`sanitize_distances`, `multilateration_least_squares`, `coarse_grid_search`
and `estimate_position_from_rssi`.  `np.linalg.lstsq` is modelled by its
exact-arithmetic meaning: the minimum-norm least-squares solution (via the
pseudoinverse of the 2x2 normal matrix) together with the effective rank of
the coefficient matrix (2 exactly when the normal matrix is invertible).
`np.clip(d, lo, hi)` is `min (max d lo) hi`.  The `(None, None, inf)`
initial best of the grid search is modelled by an `Option` accumulator.
Errors raised by the Python code (the explicit `ValueError` for fewer than
3 anchors, the explicit `ValueError` for a weight-length mismatch in
`app_plot_2.py`, and numpy shape/index errors when the distance list does
not match the positions) are modelled with `Except`. -/

structure SolveResult where
  x : ℝ
  y : ℝ
  residNorm : ℝ
  success : Bool

inductive SolveError where
  | invalidAnchorCount
  | shapeMismatch
  | weightMismatch
deriving DecidableEq

noncomputable def sanitize_distances (distances : List ℝ) (room_diag : ℝ)
    (min_d : ℝ := 0.05) : List ℝ :=
  distances.map fun d => min (max d min_d) (room_diag * 1.2)

noncomputable def est_dists (positions : List (ℝ × ℝ)) (px py : ℝ) : List ℝ :=
  positions.map fun q => Real.sqrt ((q.1 - px) ^ 2 + (q.2 - py) ^ 2)

noncomputable def resid_norm (positions : List (ℝ × ℝ)) (distances : List ℝ)
    (px py : ℝ) : ℝ :=
  Real.sqrt ((((est_dists positions px py).zip distances).map
    fun er => (er.1 - er.2) ^ 2).sum)

/-- Minimum-norm least-squares solution of `rows · (x, y) = b` with the
effective rank, as `np.linalg.lstsq(..., rcond=None)` computes in exact
arithmetic: on the normal matrix `M = AᵀA` and `c = Aᵀb`, rank 2 when
`det M ≠ 0` (Cramer), rank 1 when `M ≠ 0` with solution `M c / (tr M)²`
(the rank-one pseudoinverse; `c` lies in the range of `M`), rank 0 with
the zero solution when `A = 0`. -/
noncomputable def lstsq (rows : List (ℝ × ℝ)) (b : List ℝ) : ℝ × ℝ × ℕ :=
  let m11 := (rows.map fun a => a.1 ^ 2).sum
  let m12 := (rows.map fun a => a.1 * a.2).sum
  let m22 := (rows.map fun a => a.2 ^ 2).sum
  let c1 := ((rows.zip b).map fun ab => ab.1.1 * ab.2).sum
  let c2 := ((rows.zip b).map fun ab => ab.1.2 * ab.2).sum
  let det := m11 * m22 - m12 ^ 2
  if det ≠ 0 then
    ((m22 * c1 - m12 * c2) / det, (m11 * c2 - m12 * c1) / det, 2)
  else if m11 + m22 ≠ 0 then
    ((m11 * c1 + m12 * c2) / (m11 + m22) ^ 2, (m12 * c1 + m22 * c2) / (m11 + m22) ^ 2, 1)
  else
    (0, 0, 0)

/-- The row-count validation of the optional weights in `app_plot_2.py`
(`weights must match number of rows (N-1)`); the number of rows of the
linear system is `N - 1`. -/
def weight_length_bad (weights : Option (List ℝ)) (n : ℕ) : Bool :=
  match weights with
  | none => false
  | some w => decide (w.length ≠ n - 1)

noncomputable def multilateration_least_squares (positions : List (ℝ × ℝ))
    (distances : List ℝ) (weights : Option (List ℝ)) :
    Except SolveError SolveResult :=
  if positions.length < 3 then .error .invalidAnchorCount
  else if distances.length ≠ positions.length then .error .shapeMismatch
  else if weight_length_bad weights positions.length then .error .weightMismatch
  else
    let p0 := positions.headI
    let r0 := distances.headI
    let rows := positions.tail.map fun q => (2 * (q.1 - p0.1), 2 * (q.2 - p0.2))
    let b := (positions.tail.zip distances.tail).map fun qr =>
      (r0 ^ 2 - qr.2 ^ 2) - (p0.1 ^ 2 - qr.1.1 ^ 2) - (p0.2 ^ 2 - qr.1.2 ^ 2)
    match weights with
    | none =>
      let s := lstsq rows b
      .ok ⟨s.1, s.2.1, resid_norm positions distances s.1 s.2.1, decide (2 ≤ s.2.2)⟩
    | some w =>
      let rows2 := (rows.zip w).map fun pr =>
        (pr.1.1 * Real.sqrt pr.2, pr.1.2 * Real.sqrt pr.2)
      let b2 := (b.zip w).map fun bw => bw.1 * Real.sqrt bw.2
      let s := lstsq rows2 b2
      .ok ⟨s.1, s.2.1, resid_norm positions distances s.1 s.2.1, decide (2 ≤ s.2.2)⟩

/-- `np.arange(start, stop, step)` for positive `step` in exact arithmetic:
`start + i * step` for `i` below `ceil((stop - start) / step)`. -/
noncomputable def arange (start stop step : ℝ) : List ℝ :=
  (List.range ⌈(stop - start) / step⌉₊).map fun i : ℕ => start + (i : ℝ) * step

/-- The accumulation loop of `coarse_grid_search` (`best = (None, None, inf)`,
strict improvement). -/
noncomputable def best_scan (F : ℝ × ℝ → ℝ) (P : List (ℝ × ℝ)) :
    Option (ℝ × ℝ × ℝ) :=
  P.foldl (fun best q =>
    match best with
    | none => some (q.1, q.2, F q)
    | some bq => if F q < bq.2.2 then some (q.1, q.2, F q) else best) none

noncomputable def coarse_grid_search (positions : List (ℝ × ℝ))
    (distances : List ℝ) (room_bounds : ℝ × ℝ × ℝ × ℝ) (grid_res : ℝ) :
    Option (ℝ × ℝ × ℝ) :=
  let xs := arange room_bounds.1 (room_bounds.2.1 + 1e-9) grid_res
  let ys := arange room_bounds.2.2.1 (room_bounds.2.2.2 + 1e-9) grid_res
  let P := xs.flatMap fun x => ys.map fun y => (x, y)
  best_scan (fun q => resid_norm positions distances q.1 q.2) P

/-- The accept/reject-then-fallback composition of
`estimate_position_from_rssi` in `app_plot_3.py` (lines 86-92), over
arbitrary anchor positions: the linear solution is rejected when the rank
is below 2 or the residual norm exceeds the threshold (`np.isnan` is
identically false in the exact model), in which case the grid-search result
is returned flagged unsuccessful. -/
noncomputable def solve_with_fallback (positions : List (ℝ × ℝ))
    (distances : List ℝ) (room_bounds : ℝ × ℝ × ℝ × ℝ) (threshold : ℝ) :
    Option SolveResult :=
  match multilateration_least_squares positions distances none with
  | .error _ => none
  | .ok s =>
    if s.success = false ∨ s.residNorm > threshold then
      match coarse_grid_search positions distances room_bounds 0.05 with
      | some bq => some ⟨bq.1, bq.2.1, bq.2.2, false⟩
      | none => none
    else some s

namespace AppPlot3

/-- `estimate_position_from_rssi` of `app_plot_3.py` (lines 82-92). -/
noncomputable def estimate_position_from_rssi (r1 r2 r3 D1 D2 room_margin : ℝ) :
    Option SolveResult :=
  let positions : List (ℝ × ℝ) := [(0, 0), (D1, 0), (0, D2)]
  let room_diag := Real.sqrt (D1 ^ 2 + D2 ^ 2)
  let dists := sanitize_distances [r1, r2, r3] room_diag
  solve_with_fallback positions dists
    (-room_margin, D1 + room_margin, -room_margin, D2 + room_margin)
    (max 0.5 (0.1 * room_diag))

end AppPlot3

/-- The branch structure of `estimate_position_from_rssi` in
`app_plot_2.py` (lines 131-146): rank deficiency (or a NaN coordinate,
identically absent in the exact model) always falls back to the grid
result; a residual above the threshold falls back only when the grid
residual is strictly better. -/
noncomputable def solve_with_fallback_keep_better (positions : List (ℝ × ℝ))
    (distances : List ℝ) (room_bounds : ℝ × ℝ × ℝ × ℝ) (threshold : ℝ) :
    Option SolveResult :=
  match multilateration_least_squares positions distances none with
  | .error _ => none
  | .ok s =>
    if s.success = false then
      match coarse_grid_search positions distances room_bounds 0.05 with
      | some bq => some ⟨bq.1, bq.2.1, bq.2.2, false⟩
      | none => none
    else if s.residNorm > threshold then
      match coarse_grid_search positions distances room_bounds 0.05 with
      | some bq =>
        if bq.2.2 < s.residNorm then some ⟨bq.1, bq.2.1, bq.2.2, false⟩ else some s
      | none => some s
    else some s

namespace AppPlot2

/-- `estimate_position_from_rssi` of `app_plot_2.py` (lines 120-146). -/
noncomputable def estimate_position_from_rssi (r1 r2 r3 D1 D2 room_margin : ℝ) :
    Option SolveResult :=
  let positions : List (ℝ × ℝ) := [(0, 0), (D1, 0), (0, D2)]
  let room_diag := Real.sqrt (D1 ^ 2 + D2 ^ 2)
  let dists := sanitize_distances [r1, r2, r3] room_diag
  solve_with_fallback_keep_better positions dists
    (-room_margin, D1 + room_margin, -room_margin, D2 + room_margin)
    (max 0.5 (0.1 * room_diag))

end AppPlot2

theorem AppPlot3.estimate_eq_p3 (r1 r2 r3 D1 D2 room_margin : ℝ) :
    AppPlot3.estimate_position_from_rssi r1 r2 r3 D1 D2 room_margin
      = solve_with_fallback [(0, 0), (D1, 0), (0, D2)]
          (sanitize_distances [r1, r2, r3] (Real.sqrt (D1 ^ 2 + D2 ^ 2)))
          (-room_margin, D1 + room_margin, -room_margin, D2 + room_margin)
          (max 0.5 (0.1 * Real.sqrt (D1 ^ 2 + D2 ^ 2))) := rfl

theorem AppPlot2.estimate_eq_p2 (r1 r2 r3 D1 D2 room_margin : ℝ) :
    AppPlot2.estimate_position_from_rssi r1 r2 r3 D1 D2 room_margin
      = solve_with_fallback_keep_better [(0, 0), (D1, 0), (0, D2)]
          (sanitize_distances [r1, r2, r3] (Real.sqrt (D1 ^ 2 + D2 ^ 2)))
          (-room_margin, D1 + room_margin, -room_margin, D2 + room_margin)
          (max 0.5 (0.1 * Real.sqrt (D1 ^ 2 + D2 ^ 2))) := rfl

theorem solve_with_fallback_of_ok (positions : List (ℝ × ℝ)) (distances : List ℝ)
    (room_bounds : ℝ × ℝ × ℝ × ℝ) (threshold : ℝ) (s : SolveResult)
    (hs : multilateration_least_squares positions distances none = .ok s) :
    solve_with_fallback positions distances room_bounds threshold
      = if s.success = false ∨ s.residNorm > threshold then
          (match coarse_grid_search positions distances room_bounds 0.05 with
           | some bq => some ⟨bq.1, bq.2.1, bq.2.2, false⟩
           | none => none)
        else some s := by
  unfold solve_with_fallback
  rw [hs]

theorem solve_with_fallback_keep_better_of_ok (positions : List (ℝ × ℝ))
    (distances : List ℝ) (room_bounds : ℝ × ℝ × ℝ × ℝ) (threshold : ℝ)
    (s : SolveResult)
    (hs : multilateration_least_squares positions distances none = .ok s) :
    solve_with_fallback_keep_better positions distances room_bounds threshold
      = if s.success = false then
          (match coarse_grid_search positions distances room_bounds 0.05 with
           | some bq => some ⟨bq.1, bq.2.1, bq.2.2, false⟩
           | none => none)
        else if s.residNorm > threshold then
          (match coarse_grid_search positions distances room_bounds 0.05 with
           | some bq =>
             if bq.2.2 < s.residNorm then some ⟨bq.1, bq.2.1, bq.2.2, false⟩ else some s
           | none => some s)
        else some s := by
  unfold solve_with_fallback_keep_better
  rw [hs]

/-- Evaluation of `multilateration_least_squares` on exactly three anchors
and no weights: the two linearized rows and right-hand sides, solved by
`lstsq`. -/
theorem mls_three_eval (p0 p1 p2 : ℝ × ℝ) (d1 d2 d3 : ℝ) :
    multilateration_least_squares [p0, p1, p2] [d1, d2, d3] none
      = .ok ⟨(lstsq [(2 * (p1.1 - p0.1), 2 * (p1.2 - p0.2)),
                     (2 * (p2.1 - p0.1), 2 * (p2.2 - p0.2))]
                [(d1 ^ 2 - d2 ^ 2) - (p0.1 ^ 2 - p1.1 ^ 2) - (p0.2 ^ 2 - p1.2 ^ 2),
                 (d1 ^ 2 - d3 ^ 2) - (p0.1 ^ 2 - p2.1 ^ 2) - (p0.2 ^ 2 - p2.2 ^ 2)]).1,
             (lstsq [(2 * (p1.1 - p0.1), 2 * (p1.2 - p0.2)),
                     (2 * (p2.1 - p0.1), 2 * (p2.2 - p0.2))]
                [(d1 ^ 2 - d2 ^ 2) - (p0.1 ^ 2 - p1.1 ^ 2) - (p0.2 ^ 2 - p1.2 ^ 2),
                 (d1 ^ 2 - d3 ^ 2) - (p0.1 ^ 2 - p2.1 ^ 2) - (p0.2 ^ 2 - p2.2 ^ 2)]).2.1,
             resid_norm [p0, p1, p2] [d1, d2, d3]
               (lstsq [(2 * (p1.1 - p0.1), 2 * (p1.2 - p0.2)),
                       (2 * (p2.1 - p0.1), 2 * (p2.2 - p0.2))]
                  [(d1 ^ 2 - d2 ^ 2) - (p0.1 ^ 2 - p1.1 ^ 2) - (p0.2 ^ 2 - p1.2 ^ 2),
                   (d1 ^ 2 - d3 ^ 2) - (p0.1 ^ 2 - p2.1 ^ 2) - (p0.2 ^ 2 - p2.2 ^ 2)]).1
               (lstsq [(2 * (p1.1 - p0.1), 2 * (p1.2 - p0.2)),
                       (2 * (p2.1 - p0.1), 2 * (p2.2 - p0.2))]
                  [(d1 ^ 2 - d2 ^ 2) - (p0.1 ^ 2 - p1.1 ^ 2) - (p0.2 ^ 2 - p1.2 ^ 2),
                   (d1 ^ 2 - d3 ^ 2) - (p0.1 ^ 2 - p2.1 ^ 2) - (p0.2 ^ 2 - p2.2 ^ 2)]).2.1,
             decide (2 ≤ (lstsq [(2 * (p1.1 - p0.1), 2 * (p1.2 - p0.2)),
                     (2 * (p2.1 - p0.1), 2 * (p2.2 - p0.2))]
                [(d1 ^ 2 - d2 ^ 2) - (p0.1 ^ 2 - p1.1 ^ 2) - (p0.2 ^ 2 - p1.2 ^ 2),
                 (d1 ^ 2 - d3 ^ 2) - (p0.1 ^ 2 - p2.1 ^ 2) - (p0.2 ^ 2 - p2.2 ^ 2)]).2.2)⟩ :=
  rfl

/-- A rank below 2 is reported by `lstsq` on two rows whose cross product
vanishes (the Lagrange identity turns the determinant of the normal matrix
into the square of the cross product). -/
theorem lstsq_two_rank_lt (a1 a2 : ℝ × ℝ) (b1 b2 : ℝ)
    (h : a1.1 * a2.2 - a1.2 * a2.1 = 0) :
    (lstsq [a1, a2] [b1, b2]).2.2 ≤ 1 := by
  unfold lstsq
  have hdet : ((List.map (fun a => a.1 ^ 2) [a1, a2]).sum
        * (List.map (fun a => a.2 ^ 2) [a1, a2]).sum
        - (List.map (fun a => a.1 * a.2) [a1, a2]).sum ^ 2) = 0 := by
    simp only [List.map_cons, List.map_nil, List.sum_cons, List.sum_nil, add_zero]
    linear_combination (a1.1 * a2.2 - a1.2 * a2.1 + 0) * h
  rw [if_neg (not_not_intro hdet)]
  split
  · simp
  · simp

theorem arange_ne_nil (start stop step : ℝ) (h : start < stop) (hstep : 0 < step) :
    arange start stop step ≠ [] := by
  unfold arange
  have h1 : 0 < (stop - start) / step := div_pos (by linarith) hstep
  have h2 := Nat.ceil_pos.mpr h1
  intro hcon
  rw [List.map_eq_nil_iff, List.range_eq_nil] at hcon
  omega

theorem arange_mem_bounds (start stop step : ℝ) (hstep : 0 < step) (x : ℝ)
    (hx : x ∈ arange start stop step) : start ≤ x ∧ x < stop := by
  unfold arange at hx
  simp only [List.mem_map, List.mem_range] at hx
  obtain ⟨i, hi, rfl⟩ := hx
  constructor
  · have hnn : (0 : ℝ) ≤ (i : ℝ) * step := mul_nonneg (by positivity) hstep.le
    linarith
  · have h1 : (i : ℝ) < (stop - start) / step := by
      exact_mod_cast Nat.lt_ceil.mp hi
    have h2 : (i : ℝ) * step < ((stop - start) / step) * step :=
      mul_lt_mul_of_pos_right h1 hstep
    rw [div_mul_cancel₀ _ (ne_of_gt hstep)] at h2
    linarith

theorem best_scan_aux (F : ℝ × ℝ → ℝ) (P : List (ℝ × ℝ)) :
    ∀ q0 : ℝ × ℝ,
      ∃ q : ℝ × ℝ, (q = q0 ∨ q ∈ P)
        ∧ P.foldl (fun best q => match best with
            | none => some (q.1, q.2, F q)
            | some bq => if F q < bq.2.2 then some (q.1, q.2, F q) else best)
            (some (q0.1, q0.2, F q0))
          = some (q.1, q.2, F q) := by
  induction P with
  | nil => exact fun q0 => ⟨q0, Or.inl rfl, rfl⟩
  | cons p P ih =>
    intro q0
    by_cases h : F p < F q0
    · obtain ⟨q, hq, heq⟩ := ih p
      refine ⟨q, ?_, ?_⟩
      · rcases hq with h1 | h1
        · exact Or.inr (by simp [h1])
        · exact Or.inr (by simp [h1])
      · simpa [h] using heq
    · obtain ⟨q, hq, heq⟩ := ih q0
      refine ⟨q, ?_, ?_⟩
      · rcases hq with h1 | h1
        · exact Or.inl h1
        · exact Or.inr (by simp [h1])
      · simpa [h] using heq

theorem best_scan_mem (F : ℝ × ℝ → ℝ) (P : List (ℝ × ℝ)) (hP : P ≠ []) :
    ∃ q : ℝ × ℝ, q ∈ P ∧ best_scan F P = some (q.1, q.2, F q) := by
  obtain ⟨p, P2, rfl⟩ := List.exists_cons_of_ne_nil hP
  unfold best_scan
  obtain ⟨q, hq, heq⟩ := best_scan_aux F P2 p
  refine ⟨q, ?_, ?_⟩
  · rcases hq with h1 | h1
    · simp [h1]
    · simp [h1]
  · simpa using heq

theorem coarse_grid_search_eq (positions : List (ℝ × ℝ)) (distances : List ℝ)
    (xmin xmax ymin ymax grid_res : ℝ) :
    coarse_grid_search positions distances (xmin, xmax, ymin, ymax) grid_res
      = best_scan (fun q => resid_norm positions distances q.1 q.2)
          ((arange xmin (xmax + 1e-9) grid_res).flatMap fun x =>
            (arange ymin (ymax + 1e-9) grid_res).map fun y => (x, y)) := rfl

theorem coarse_grid_search_spec (positions : List (ℝ × ℝ)) (distances : List ℝ)
    (xmin xmax ymin ymax grid_res : ℝ) (hres : 0 < grid_res)
    (hx : xmin < xmax + 1e-9) (hy : ymin < ymax + 1e-9) :
    ∃ q : ℝ × ℝ, xmin ≤ q.1 ∧ q.1 < xmax + 1e-9 ∧ ymin ≤ q.2 ∧ q.2 < ymax + 1e-9
      ∧ coarse_grid_search positions distances (xmin, xmax, ymin, ymax) grid_res
        = some (q.1, q.2, resid_norm positions distances q.1 q.2) := by
  have hxs := arange_ne_nil xmin (xmax + 1e-9) grid_res hx hres
  have hys := arange_ne_nil ymin (ymax + 1e-9) grid_res hy hres
  obtain ⟨x0, hx0⟩ := List.exists_mem_of_ne_nil _ hxs
  obtain ⟨y0, hy0⟩ := List.exists_mem_of_ne_nil _ hys
  have hP : ((arange xmin (xmax + 1e-9) grid_res).flatMap fun x =>
      (arange ymin (ymax + 1e-9) grid_res).map fun y => (x, y)) ≠ [] := by
    apply List.ne_nil_of_mem (a := (x0, y0))
    simp only [List.mem_flatMap, List.mem_map]
    exact ⟨x0, hx0, y0, hy0, rfl⟩
  obtain ⟨q, hmem, heq⟩ := best_scan_mem _ _ hP
  simp only [List.mem_flatMap, List.mem_map] at hmem
  obtain ⟨x, hxmem, y, hymem, hq⟩ := hmem
  obtain ⟨hx1, hx2⟩ := arange_mem_bounds xmin (xmax + 1e-9) grid_res hres x hxmem
  obtain ⟨hy1, hy2⟩ := arange_mem_bounds ymin (ymax + 1e-9) grid_res hres y hymem
  refine ⟨q, ?_, ?_, ?_, ?_, ?_⟩
  · rw [← hq]; exact hx1
  · rw [← hq]; exact hx2
  · rw [← hq]; exact hy1
  · rw [← hq]; exact hy2
  · rw [coarse_grid_search_eq]; exact heq

/-- C8: `multilateration_least_squares` signals the invalid-anchor-count
error if and only if it is given fewer than 3 anchor positions; it does so
before touching the distances or weights (the function is pure, so there is
no state to mutate, and the error value does not depend on them); and for
well-formed input (length-matched positions, distances and weights, N at
least 3) it returns a result rather than an error. -/
theorem mls_invalid_anchor_count :
    (∀ (positions : List (ℝ × ℝ)) (distances : List ℝ) (weights : Option (List ℝ)),
        multilateration_least_squares positions distances weights
            = .error .invalidAnchorCount
          ↔ positions.length < 3)
    ∧ (∀ (positions : List (ℝ × ℝ)) (d1 d2 : List ℝ) (w1 w2 : Option (List ℝ)),
        positions.length < 3 →
          multilateration_least_squares positions d1 w1
            = multilateration_least_squares positions d2 w2)
    ∧ (∀ (positions : List (ℝ × ℝ)) (distances : List ℝ),
        3 ≤ positions.length → distances.length = positions.length →
          ∃ s, multilateration_least_squares positions distances none = .ok s)
    ∧ (∀ (positions : List (ℝ × ℝ)) (distances : List ℝ) (w : List ℝ),
        3 ≤ positions.length → distances.length = positions.length →
          w.length = positions.length - 1 →
          ∃ s, multilateration_least_squares positions distances (some w) = .ok s) := by
  refine ⟨fun positions distances weights => ?_, fun positions d1 d2 w1 w2 h => ?_,
    fun positions distances h3 hlen => ?_, fun positions distances w h3 hlen hw => ?_⟩
  · constructor
    · intro h
      by_contra hlen
      push_neg at hlen
      unfold multilateration_least_squares at h
      rw [if_neg (by omega)] at h
      by_cases hsh : distances.length ≠ positions.length
      · rw [if_pos hsh] at h
        simp at h
      · rw [if_neg hsh] at h
        by_cases hwb : weight_length_bad weights positions.length = true
        · rw [if_pos hwb] at h
          simp at h
        · rw [if_neg hwb] at h
          rcases weights with _ | ww
          · simp at h
          · simp at h
    · intro h
      unfold multilateration_least_squares
      rw [if_pos h]
  · unfold multilateration_least_squares
    rw [if_pos h, if_pos h]
  · unfold multilateration_least_squares
    rw [if_neg (by omega), if_neg (by omega),
      if_neg (by simp [weight_length_bad])]
    exact ⟨_, rfl⟩
  · unfold multilateration_least_squares
    rw [if_neg (by omega), if_neg (by omega),
      if_neg (by simp [weight_length_bad]; omega)]
    exact ⟨_, rfl⟩

/-- Witness for C8: two anchors give the invalid-anchor-count error; three
length-matched anchors and distances give a result. -/
theorem mls_invalid_anchor_count_witness :
    multilateration_least_squares [((0 : ℝ), (0 : ℝ)), (1, 0)] [1, 1] none
      = .error .invalidAnchorCount
    ∧ ∃ s, multilateration_least_squares [((0 : ℝ), (0 : ℝ)), (1, 0), (0, 1)]
        [1, 1, 1] none = .ok s := by
  constructor
  · exact (mls_invalid_anchor_count.1 [(0, 0), (1, 0)] [1, 1] none).mpr (by norm_num)
  · exact mls_invalid_anchor_count.2.2.1 [(0, 0), (1, 0), (0, 1)] [1, 1, 1]
      (by norm_num) (by norm_num)

theorem mls_collinear_not_success (p0 p1 p2 : ℝ × ℝ) (d1 d2 d3 : ℝ)
    (hcol : (p1.1 - p0.1) * (p2.2 - p0.2) - (p2.1 - p0.1) * (p1.2 - p0.2) = 0) :
    ∃ s : SolveResult,
      multilateration_least_squares [p0, p1, p2] [d1, d2, d3] none = .ok s
      ∧ s.success = false := by
  rw [mls_three_eval]
  refine ⟨_, rfl, ?_⟩
  have hr := lstsq_two_rank_lt (2 * (p1.1 - p0.1), 2 * (p1.2 - p0.2))
    (2 * (p2.1 - p0.1), 2 * (p2.2 - p0.2))
    ((d1 ^ 2 - d2 ^ 2) - (p0.1 ^ 2 - p1.1 ^ 2) - (p0.2 ^ 2 - p1.2 ^ 2))
    ((d1 ^ 2 - d3 ^ 2) - (p0.1 ^ 2 - p2.1 ^ 2) - (p0.2 ^ 2 - p2.2 ^ 2))
    (by linear_combination 4 * hcol)
  exact decide_eq_false (by omega)

/-- C3: for every collinear configuration of 3 anchor positions and
arbitrary strictly positive distances, the solve pipeline (linear solve
followed by the grid-search fallback) produces a result rather than an
exception, the result is flagged `success = false`, its coordinates are the
grid minimiser of the residual norm, and they lie inside the searched grid
bounds. -/
theorem collinear_fallback (p0 p1 p2 : ℝ × ℝ) (d1 d2 d3 : ℝ)
    (hcol : (p1.1 - p0.1) * (p2.2 - p0.2) - (p2.1 - p0.1) * (p1.2 - p0.2) = 0)
    (hd1 : 0 < d1) (hd2 : 0 < d2) (hd3 : 0 < d3)
    (xmin xmax ymin ymax threshold : ℝ) (hx : xmin ≤ xmax) (hy : ymin ≤ ymax) :
    ∃ q : ℝ × ℝ,
      solve_with_fallback [p0, p1, p2] [d1, d2, d3] (xmin, xmax, ymin, ymax) threshold
        = some ⟨q.1, q.2, resid_norm [p0, p1, p2] [d1, d2, d3] q.1 q.2, false⟩
      ∧ xmin ≤ q.1 ∧ q.1 < xmax + 1e-9 ∧ ymin ≤ q.2 ∧ q.2 < ymax + 1e-9 := by
  obtain ⟨s, hs, hsucc⟩ := mls_collinear_not_success p0 p1 p2 d1 d2 d3 hcol
  have h9 : (0 : ℝ) < 1e-9 := by norm_num
  obtain ⟨q, hq1, hq2, hq3, hq4, hgrid⟩ := coarse_grid_search_spec [p0, p1, p2]
    [d1, d2, d3] xmin xmax ymin ymax 0.05 (by norm_num) (by linarith) (by linarith)
  refine ⟨q, ?_, hq1, hq2, hq3, hq4⟩
  rw [solve_with_fallback_of_ok _ _ _ _ s hs, if_pos (Or.inl hsucc), hgrid]

/-- Witness for C3 at the collinear anchors (0,0), (1,0), (2,0) with unit
distances and the searched box [0,1] x [0,1]. -/
theorem collinear_fallback_witness :
    ∃ q : ℝ × ℝ,
      solve_with_fallback [((0 : ℝ), (0 : ℝ)), (1, 0), (2, 0)] [1, 1, 1]
          (0, 1, 0, 1) 0.5
        = some ⟨q.1, q.2,
            resid_norm [((0 : ℝ), (0 : ℝ)), (1, 0), (2, 0)] [1, 1, 1] q.1 q.2, false⟩
      ∧ 0 ≤ q.1 ∧ q.1 < 1 + 1e-9 ∧ 0 ≤ q.2 ∧ q.2 < 1 + 1e-9 :=
  collinear_fallback (0, 0) (1, 0) (2, 0) 1 1 1 (by norm_num) (by norm_num)
    (by norm_num) (by norm_num) 0 1 0 1 0.5 (by norm_num) (by norm_num)

/-- In `app_plot_3.py`'s composition, whenever the linear least-squares
solution is rejected (rank below 2, or residual norm above
`max 0.5 (0.1 * roomDiagonal)`; a NaN coordinate cannot arise in the exact
model), the returned estimate is the grid-search fallback result — the grid
minimiser of the residual norm — flagged `success = false`, regardless of
whether the grid residual improves on the linear one. -/
theorem rejected_uses_grid_fallback (r1 r2 r3 D1 D2 room_margin : ℝ)
    (s : SolveResult)
    (hs : multilateration_least_squares [(0, 0), (D1, 0), (0, D2)]
        (sanitize_distances [r1, r2, r3] (Real.sqrt (D1 ^ 2 + D2 ^ 2))) none = .ok s)
    (hrej : s.success = false
      ∨ s.residNorm > max 0.5 (0.1 * Real.sqrt (D1 ^ 2 + D2 ^ 2)))
    (hx : -room_margin ≤ D1 + room_margin) (hy : -room_margin ≤ D2 + room_margin) :
    ∃ q : ℝ × ℝ,
      AppPlot3.estimate_position_from_rssi r1 r2 r3 D1 D2 room_margin
        = some ⟨q.1, q.2,
            resid_norm [(0, 0), (D1, 0), (0, D2)]
              (sanitize_distances [r1, r2, r3] (Real.sqrt (D1 ^ 2 + D2 ^ 2))) q.1 q.2,
            false⟩ := by
  have h9 : (0 : ℝ) < 1e-9 := by norm_num
  obtain ⟨q, hq1, hq2, hq3, hq4, hgrid⟩ := coarse_grid_search_spec
    [(0, 0), (D1, 0), (0, D2)]
    (sanitize_distances [r1, r2, r3] (Real.sqrt (D1 ^ 2 + D2 ^ 2)))
    (-room_margin) (D1 + room_margin) (-room_margin) (D2 + room_margin) 0.05
    (by norm_num) (by linarith) (by linarith)
  refine ⟨q, ?_⟩
  rw [AppPlot3.estimate_eq_p3, solve_with_fallback_of_ok _ _ _ _ s hs, if_pos hrej, hgrid]

theorem sqrt_eq_of_sq (a b : ℝ) (h : a = b ^ 2) (hb : 0 ≤ b) :
    Real.sqrt a = b := by
  rw [h]
  exact Real.sqrt_sq hb

/-- In `app_plot_2.py`'s fallback composition, when the linear solution
succeeds with a residual above the threshold but the grid minimum is not
strictly better, the linear solution itself is returned (line 146 of the
source). -/
theorem keep_better_not_better (positions : List (ℝ × ℝ)) (distances : List ℝ)
    (room_bounds : ℝ × ℝ × ℝ × ℝ) (threshold : ℝ) (s : SolveResult)
    (bq : ℝ × ℝ × ℝ)
    (hs : multilateration_least_squares positions distances none = .ok s)
    (hsucc : ¬ (s.success = false))
    (hres : s.residNorm > threshold)
    (hgrid : coarse_grid_search positions distances room_bounds 0.05 = some bq)
    (hnb : ¬ (bq.2.2 < s.residNorm)) :
    solve_with_fallback_keep_better positions distances room_bounds threshold
      = some s := by
  rw [solve_with_fallback_keep_better_of_ok _ _ _ _ _ hs, if_neg hsucc,
    if_pos hres, hgrid]
  exact if_neg hnb

/-- Counterexample to C2 as frozen: the claim also cites
`app_plot_2.py` (lines 131-146), but there, with anchors (0,0), (4,0),
(0,3) (room diagonal exactly 5, threshold `max 0.5 (0.1 * 5) = 0.5`) and
input distances 5.9, 1.75, 5.9 (unchanged by the sanitize clamp), the
linear solution (19099/3200, 1.5) has rank 2 and residual norm about 0.809
— above the threshold, so the claim's rejection condition holds — yet every
grid point of the searched box has residual at least 1.05, the grid minimum
is not strictly better, and `estimate_position_from_rssi` returns the
linear solution flagged `success = true`, not the grid fallback flagged
`success = false`. -/
theorem appplot2_keeps_linear_cex :
    AppPlot2.estimate_position_from_rssi 5.9 1.75 5.9 4 3 0.1
      = some ⟨19099/3200, 1.5,
          resid_norm [((0 : ℝ), (0 : ℝ)), (4, 0), (0, 3)] [5.9, 1.75, 5.9]
            (19099/3200) 1.5, true⟩
    ∧ resid_norm [((0 : ℝ), (0 : ℝ)), (4, 0), (0, 3)] [5.9, 1.75, 5.9]
        (19099/3200) 1.5
      > max 0.5 (0.1 * Real.sqrt ((4 : ℝ) ^ 2 + 3 ^ 2)) := by
  have hdiag : Real.sqrt ((4 : ℝ) ^ 2 + 3 ^ 2) = 5 := by
    rw [show ((4 : ℝ) ^ 2 + 3 ^ 2) = 5 ^ 2 by norm_num]
    exact Real.sqrt_sq (by norm_num)
  have hthr : max (0.5 : ℝ) (0.1 * 5) = 0.5 := by norm_num
  have hsan : sanitize_distances [5.9, 1.75, 5.9] 5 = [5.9, 1.75, 5.9] := by
    unfold sanitize_distances
    simp only [List.map_cons, List.map_nil]
    rw [max_eq_left (show (0.05 : ℝ) ≤ 5.9 by norm_num),
      min_eq_left (show (5.9 : ℝ) ≤ 5 * 1.2 by norm_num),
      max_eq_left (show (0.05 : ℝ) ≤ 1.75 by norm_num),
      min_eq_left (show (1.75 : ℝ) ≤ 5 * 1.2 by norm_num)]
  have hlstsq : lstsq [((8 : ℝ), (0 : ℝ)), (0, 6)] [47.7475, 9]
      = (19099/3200, 1.5, 2) := by
    unfold lstsq
    norm_num
  have hmls : multilateration_least_squares [((0 : ℝ), (0 : ℝ)), (4, 0), (0, 3)]
      [5.9, 1.75, 5.9] none
      = .ok ⟨19099/3200, 1.5,
          resid_norm [((0 : ℝ), (0 : ℝ)), (4, 0), (0, 3)] [5.9, 1.75, 5.9]
            (19099/3200) 1.5, true⟩ := by
    rw [mls_three_eval]
    dsimp only
    rw [show [((2 : ℝ) * (4 - 0), (2 : ℝ) * (0 - 0)), ((2 : ℝ) * (0 - 0), (2 : ℝ) * (3 - 0))]
        = [((8 : ℝ), (0 : ℝ)), ((0 : ℝ), (6 : ℝ))] by norm_num [Prod.ext_iff]]
    rw [show [((5.9 : ℝ) ^ 2 - 1.75 ^ 2) - ((0 : ℝ) ^ 2 - 4 ^ 2) - ((0 : ℝ) ^ 2 - 0 ^ 2),
          ((5.9 : ℝ) ^ 2 - 5.9 ^ 2) - ((0 : ℝ) ^ 2 - 0 ^ 2) - ((0 : ℝ) ^ 2 - 3 ^ 2)]
        = [(47.7475 : ℝ), (9 : ℝ)] by norm_num]
    rw [hlstsq]
    dsimp only
    rfl
  have hSform : resid_norm [((0 : ℝ), (0 : ℝ)), (4, 0), (0, 3)] [5.9, 1.75, 5.9]
      (19099/3200) 1.5
      = Real.sqrt ((Real.sqrt ((387811801 : ℝ)/10240000) - 5.9) ^ 2
          + ((Real.sqrt ((62717401 : ℝ)/10240000) - 1.75) ^ 2
          + ((Real.sqrt ((387811801 : ℝ)/10240000) - 5.9) ^ 2 + 0))) := by
    unfold resid_norm est_dists
    simp only [List.map_cons, List.map_nil, List.zip_cons_cons, List.zip_nil_right,
      List.sum_cons, List.sum_nil]
    rw [show ((0 : ℝ) - 19099/3200) ^ 2 + ((0 : ℝ) - 1.5) ^ 2
        = (387811801 : ℝ)/10240000 by norm_num,
      show ((4 : ℝ) - 19099/3200) ^ 2 + ((0 : ℝ) - 1.5) ^ 2
        = (62717401 : ℝ)/10240000 by norm_num,
      show ((0 : ℝ) - 19099/3200) ^ 2 + ((3 : ℝ) - 1.5) ^ 2
        = (387811801 : ℝ)/10240000 by norm_num]
  have hd1l : (6.15 : ℝ) ≤ Real.sqrt ((387811801 : ℝ)/10240000) := by
    rw [show (6.15 : ℝ) = Real.sqrt 37.8225 from
      (sqrt_eq_of_sq 37.8225 6.15 (by norm_num) (by norm_num)).symm]
    exact Real.sqrt_le_sqrt (by norm_num)
  have hd1u : Real.sqrt ((387811801 : ℝ)/10240000) ≤ 6.16 := by
    rw [show (6.16 : ℝ) = Real.sqrt 37.9456 from
      (sqrt_eq_of_sq 37.9456 6.16 (by norm_num) (by norm_num)).symm]
    exact Real.sqrt_le_sqrt (by norm_num)
  have hd2l : (2.3 : ℝ) ≤ Real.sqrt ((62717401 : ℝ)/10240000) := by
    rw [show (2.3 : ℝ) = Real.sqrt 5.29 from
      (sqrt_eq_of_sq 5.29 2.3 (by norm_num) (by norm_num)).symm]
    exact Real.sqrt_le_sqrt (by norm_num)
  have hd2u : Real.sqrt ((62717401 : ℝ)/10240000) ≤ 2.48 := by
    rw [show (2.48 : ℝ) = Real.sqrt 6.1504 from
      (sqrt_eq_of_sq 6.1504 2.48 (by norm_num) (by norm_num)).symm]
    exact Real.sqrt_le_sqrt (by norm_num)
  have hRlb : (0.55 : ℝ) ≤ resid_norm [((0 : ℝ), (0 : ℝ)), (4, 0), (0, 3)]
      [5.9, 1.75, 5.9] (19099/3200) 1.5 := by
    rw [hSform]
    have e2 : (0.55 : ℝ) ^ 2 ≤ (Real.sqrt ((62717401 : ℝ)/10240000) - 1.75) ^ 2 :=
      pow_le_pow_left₀ (by norm_num) (by linarith) 2
    have s1 := sq_nonneg (Real.sqrt ((387811801 : ℝ)/10240000) - 5.9)
    have c3 : ((0.55 : ℝ)) ^ 2 = 0.3025 := by norm_num
    exact le_trans (le_of_eq (sqrt_eq_of_sq 0.3025 0.55 (by norm_num) (by norm_num)).symm)
      (Real.sqrt_le_sqrt (by linarith))
  have hRub : resid_norm [((0 : ℝ), (0 : ℝ)), (4, 0), (0, 3)]
      [5.9, 1.75, 5.9] (19099/3200) 1.5 ≤ 0.82 := by
    rw [hSform]
    have e1 : (Real.sqrt ((387811801 : ℝ)/10240000) - 5.9) ^ 2 ≤ (0.26 : ℝ) ^ 2 :=
      sq_le_sq' (by linarith) (by linarith)
    have e2 : (Real.sqrt ((62717401 : ℝ)/10240000) - 1.75) ^ 2 ≤ (0.73 : ℝ) ^ 2 :=
      sq_le_sq' (by linarith) (by linarith)
    have c1 : ((0.26 : ℝ)) ^ 2 = 0.0676 := by norm_num
    have c2 : ((0.73 : ℝ)) ^ 2 = 0.5329 := by norm_num
    exact le_trans (Real.sqrt_le_sqrt (by linarith))
      (le_of_eq (sqrt_eq_of_sq 0.6724 0.82 (by norm_num) (by norm_num)))
  have hgridlb : ∀ x y : ℝ, -0.1 ≤ x → x < 4 + 0.1 + 1e-9 → -0.1 ≤ y →
      y < 3 + 0.1 + 1e-9 →
      (1.05 : ℝ) ≤ resid_norm [((0 : ℝ), (0 : ℝ)), (4, 0), (0, 3)]
        [5.9, 1.75, 5.9] x y := by
    intro x y hx1 hx2 hy1 hy2
    have hx3 : x ≤ 4.11 := by
      have hnum : (4 : ℝ) + 0.1 + 1e-9 ≤ 4.11 := by norm_num
      linarith
    have hy3 : y ≤ 3.11 := by
      have hnum : (3 : ℝ) + 0.1 + 1e-9 ≤ 3.11 := by norm_num
      linarith
    have hb1 : ((0 : ℝ) - x) ^ 2 + ((0 : ℝ) - y) ^ 2 ≤ 26.5642 := by
      have h1 : ((0 : ℝ) - x) ^ 2 ≤ (4.11 : ℝ) ^ 2 := sq_le_sq' (by linarith) (by linarith)
      have h2 : ((0 : ℝ) - y) ^ 2 ≤ (3.11 : ℝ) ^ 2 := sq_le_sq' (by linarith) (by linarith)
      have c : (4.11 : ℝ) ^ 2 + (3.11 : ℝ) ^ 2 = 26.5642 := by norm_num
      linarith
    have hb3 : ((0 : ℝ) - x) ^ 2 + ((3 : ℝ) - y) ^ 2 ≤ 26.5642 := by
      have h1 : ((0 : ℝ) - x) ^ 2 ≤ (4.11 : ℝ) ^ 2 := sq_le_sq' (by linarith) (by linarith)
      have h2 : ((3 : ℝ) - y) ^ 2 ≤ (3.11 : ℝ) ^ 2 := sq_le_sq' (by linarith) (by linarith)
      have c : (4.11 : ℝ) ^ 2 + (3.11 : ℝ) ^ 2 = 26.5642 := by norm_num
      linarith
    have h26 : Real.sqrt 26.5642 ≤ 5.1541 := by
      rw [show (5.1541 : ℝ) = Real.sqrt 26.56474681 from
        (sqrt_eq_of_sq 26.56474681 5.1541 (by norm_num) (by norm_num)).symm]
      exact Real.sqrt_le_sqrt (by norm_num)
    have hd1 : Real.sqrt (((0 : ℝ) - x) ^ 2 + ((0 : ℝ) - y) ^ 2) ≤ 5.1541 :=
      le_trans (Real.sqrt_le_sqrt hb1) h26
    have hd3 : Real.sqrt (((0 : ℝ) - x) ^ 2 + ((3 : ℝ) - y) ^ 2) ≤ 5.1541 :=
      le_trans (Real.sqrt_le_sqrt hb3) h26
    unfold resid_norm est_dists
    simp only [List.map_cons, List.map_nil, List.zip_cons_cons, List.zip_nil_right,
      List.sum_cons, List.sum_nil]
    have e1 : (0.7459 : ℝ) ^ 2
        ≤ (Real.sqrt (((0 : ℝ) - x) ^ 2 + ((0 : ℝ) - y) ^ 2) - 5.9) ^ 2 := by
      have ha : (0.7459 : ℝ)
          ≤ -(Real.sqrt (((0 : ℝ) - x) ^ 2 + ((0 : ℝ) - y) ^ 2) - 5.9) := by linarith
      calc (0.7459 : ℝ) ^ 2
          ≤ (-(Real.sqrt (((0 : ℝ) - x) ^ 2 + ((0 : ℝ) - y) ^ 2) - 5.9)) ^ 2 :=
            pow_le_pow_left₀ (by norm_num) ha 2
        _ = (Real.sqrt (((0 : ℝ) - x) ^ 2 + ((0 : ℝ) - y) ^ 2) - 5.9) ^ 2 := by ring
    have e3 : (0.7459 : ℝ) ^ 2
        ≤ (Real.sqrt (((0 : ℝ) - x) ^ 2 + ((3 : ℝ) - y) ^ 2) - 5.9) ^ 2 := by
      have ha : (0.7459 : ℝ)
          ≤ -(Real.sqrt (((0 : ℝ) - x) ^ 2 + ((3 : ℝ) - y) ^ 2) - 5.9) := by linarith
      calc (0.7459 : ℝ) ^ 2
          ≤ (-(Real.sqrt (((0 : ℝ) - x) ^ 2 + ((3 : ℝ) - y) ^ 2) - 5.9)) ^ 2 :=
            pow_le_pow_left₀ (by norm_num) ha 2
        _ = (Real.sqrt (((0 : ℝ) - x) ^ 2 + ((3 : ℝ) - y) ^ 2) - 5.9) ^ 2 := by ring
    have s2 := sq_nonneg (Real.sqrt (((4 : ℝ) - x) ^ 2 + ((0 : ℝ) - y) ^ 2) - 1.75)
    have c4 : ((0.7459 : ℝ)) ^ 2 = 0.55636681 := by norm_num
    exact le_trans (le_of_eq (sqrt_eq_of_sq 1.1025 1.05 (by norm_num) (by norm_num)).symm)
      (Real.sqrt_le_sqrt (by linarith))
  obtain ⟨q, hq1, hq2, hq3, hq4, hgrid⟩ := coarse_grid_search_spec
    [((0 : ℝ), (0 : ℝ)), (4, 0), (0, 3)] [5.9, 1.75, 5.9]
    (-0.1) (4 + 0.1) (-0.1) (3 + 0.1) 0.05 (by norm_num) (by norm_num) (by norm_num)
  have hres2 : (⟨19099/3200, 1.5,
      resid_norm [((0 : ℝ), (0 : ℝ)), (4, 0), (0, 3)] [5.9, 1.75, 5.9]
        (19099/3200) 1.5, true⟩ : SolveResult).residNorm
      > max (0.5 : ℝ) (0.1 * 5) := by
    rw [hthr]
    show resid_norm [((0 : ℝ), (0 : ℝ)), (4, 0), (0, 3)] [5.9, 1.75, 5.9]
      (19099/3200) 1.5 > 0.5
    linarith
  have hnb : ¬ ((q.1, q.2, resid_norm [((0 : ℝ), (0 : ℝ)), (4, 0), (0, 3)]
        [5.9, 1.75, 5.9] q.1 q.2).2.2
      < (⟨19099/3200, 1.5,
          resid_norm [((0 : ℝ), (0 : ℝ)), (4, 0), (0, 3)] [5.9, 1.75, 5.9]
            (19099/3200) 1.5, true⟩ : SolveResult).residNorm) := by
    show ¬ (resid_norm [((0 : ℝ), (0 : ℝ)), (4, 0), (0, 3)] [5.9, 1.75, 5.9] q.1 q.2
      < resid_norm [((0 : ℝ), (0 : ℝ)), (4, 0), (0, 3)] [5.9, 1.75, 5.9]
        (19099/3200) 1.5)
    exact not_lt.mpr (le_trans hRub (le_trans (by norm_num)
      (hgridlb q.1 q.2 hq1 hq2 hq3 hq4)))
  constructor
  · rw [AppPlot2.estimate_eq_p2, hdiag, hsan]
    exact keep_better_not_better _ _ _ _ _ _ hmls (by simp) hres2 hgrid hnb
  · rw [hdiag, hthr]
    linarith

/-- C2 (amended): whenever the linear least-squares solution is rejected
(rank below 2 or residual norm above `max 0.5 (0.1 * roomDiagonal)`; a NaN
coordinate cannot arise in the exact model),
`estimate_position_from_rssi` of `app_plot_3.py` returns the grid-search
fallback result — the grid minimiser of the residual norm — flagged
`success = false`, even when no better solution than the linear one
existed.  In `app_plot_2.py` this holds unconditionally only for
rank-deficiency rejections; for a residual above the threshold the grid
result (flagged `success = false`) replaces the linear solution exactly
when the grid residual is strictly better, and otherwise the linear
solution itself is returned, still flagged `success = true`. -/
theorem rejected_fallback_amended (r1 r2 r3 D1 D2 room_margin : ℝ)
    (s : SolveResult)
    (hs : multilateration_least_squares [(0, 0), (D1, 0), (0, D2)]
        (sanitize_distances [r1, r2, r3] (Real.sqrt (D1 ^ 2 + D2 ^ 2))) none = .ok s)
    (hx : -room_margin ≤ D1 + room_margin) (hy : -room_margin ≤ D2 + room_margin) :
    ((s.success = false
        ∨ s.residNorm > max 0.5 (0.1 * Real.sqrt (D1 ^ 2 + D2 ^ 2))) →
      ∃ q : ℝ × ℝ,
        AppPlot3.estimate_position_from_rssi r1 r2 r3 D1 D2 room_margin
          = some ⟨q.1, q.2,
              resid_norm [(0, 0), (D1, 0), (0, D2)]
                (sanitize_distances [r1, r2, r3] (Real.sqrt (D1 ^ 2 + D2 ^ 2))) q.1 q.2,
              false⟩)
    ∧ (s.success = false →
      ∃ q : ℝ × ℝ,
        AppPlot2.estimate_position_from_rssi r1 r2 r3 D1 D2 room_margin
          = some ⟨q.1, q.2,
              resid_norm [(0, 0), (D1, 0), (0, D2)]
                (sanitize_distances [r1, r2, r3] (Real.sqrt (D1 ^ 2 + D2 ^ 2))) q.1 q.2,
              false⟩)
    ∧ (∀ bq : ℝ × ℝ × ℝ, s.success = true
        → s.residNorm > max 0.5 (0.1 * Real.sqrt (D1 ^ 2 + D2 ^ 2))
        → coarse_grid_search [(0, 0), (D1, 0), (0, D2)]
            (sanitize_distances [r1, r2, r3] (Real.sqrt (D1 ^ 2 + D2 ^ 2)))
            (-room_margin, D1 + room_margin, -room_margin, D2 + room_margin) 0.05
            = some bq
        → AppPlot2.estimate_position_from_rssi r1 r2 r3 D1 D2 room_margin
            = (if bq.2.2 < s.residNorm then some ⟨bq.1, bq.2.1, bq.2.2, false⟩
               else some s)) := by
  refine ⟨fun hrej =>
    rejected_uses_grid_fallback r1 r2 r3 D1 D2 room_margin s hs hrej hx hy,
    fun hfail => ?_, fun bq hsucc hres hgrid => ?_⟩
  · have h9 : (0 : ℝ) < 1e-9 := by norm_num
    obtain ⟨q, hq1, hq2, hq3, hq4, hgrid⟩ := coarse_grid_search_spec
      [(0, 0), (D1, 0), (0, D2)]
      (sanitize_distances [r1, r2, r3] (Real.sqrt (D1 ^ 2 + D2 ^ 2)))
      (-room_margin) (D1 + room_margin) (-room_margin) (D2 + room_margin) 0.05
      (by norm_num) (by linarith) (by linarith)
    refine ⟨q, ?_⟩
    rw [AppPlot2.estimate_eq_p2, solve_with_fallback_keep_better_of_ok _ _ _ _ s hs,
      if_pos hfail, hgrid]
  · rw [AppPlot2.estimate_eq_p2, solve_with_fallback_keep_better_of_ok _ _ _ _ s hs,
      if_neg (by simp [hsucc]), if_pos hres, hgrid]

/-- Witness for C2 (amended): with `D1 = 0` the anchors (0,0), (0,0), (0,4)
are degenerate, the rank check rejects the linear solution, and both the
`app_plot_3.py` and the `app_plot_2.py` composition return the grid
fallback flagged unsuccessful. -/
theorem rejected_fallback_amended_witness :
    (∃ q : ℝ × ℝ,
      AppPlot3.estimate_position_from_rssi 1 1 1 0 4 0.1
        = some ⟨q.1, q.2,
            resid_norm [((0 : ℝ), (0 : ℝ)), (0, 0), (0, 4)] [1, 1, 1] q.1 q.2,
            false⟩)
    ∧ (∃ q : ℝ × ℝ,
      AppPlot2.estimate_position_from_rssi 1 1 1 0 4 0.1
        = some ⟨q.1, q.2,
            resid_norm [((0 : ℝ), (0 : ℝ)), (0, 0), (0, 4)] [1, 1, 1] q.1 q.2,
            false⟩) := by
  have hdiag : Real.sqrt ((0 : ℝ) ^ 2 + 4 ^ 2) = 4 := by
    rw [show ((0 : ℝ) ^ 2 + 4 ^ 2) = 4 ^ 2 by norm_num]
    exact Real.sqrt_sq (by norm_num)
  have hsan : sanitize_distances [1, 1, 1] (Real.sqrt ((0 : ℝ) ^ 2 + 4 ^ 2))
      = [1, 1, 1] := by
    rw [hdiag]
    unfold sanitize_distances
    simp [max_eq_left (show (0.05 : ℝ) ≤ 1 by norm_num),
      min_eq_left (show (1 : ℝ) ≤ 4 * 1.2 by norm_num)]
  obtain ⟨s, hs, hsucc⟩ := mls_collinear_not_success (0, 0) (0, 0) (0, 4) 1 1 1
    (by norm_num)
  rw [← hsan] at hs
  have h := rejected_fallback_amended 1 1 1 0 4 0.1 s hs (by norm_num) (by norm_num)
  obtain ⟨q3, hq3⟩ := h.1 (Or.inl hsucc)
  obtain ⟨q2, hq2⟩ := h.2.1 hsucc
  rw [hsan] at hq3 hq2
  exact ⟨⟨q3, hq3⟩, ⟨q2, hq2⟩⟩

/-- C1: with anchors (0,0), (5,0), (0,4) and input distances equal to the
exact Euclidean distances from the true point (2, 1.5) to each anchor, the
position solver as composed in `estimate_position_from_rssi` (both the
`app_plot_3.py` and the `app_plot_2.py` composition) with `D1 = 5`,
`D2 = 4` returns exactly (2, 1.5) — in particular within 1 cm — with
residual norm 0 (below 1e-6) and `success = true`. -/
theorem exact_recovery :
    ∃ s : SolveResult,
      AppPlot3.estimate_position_from_rssi
          (Real.sqrt ((2 - 0) ^ 2 + (1.5 - 0) ^ 2))
          (Real.sqrt ((2 - 5) ^ 2 + (1.5 - 0) ^ 2))
          (Real.sqrt ((2 - 0) ^ 2 + (1.5 - 4) ^ 2)) 5 4 0.1 = some s
      ∧ AppPlot2.estimate_position_from_rssi
          (Real.sqrt ((2 - 0) ^ 2 + (1.5 - 0) ^ 2))
          (Real.sqrt ((2 - 5) ^ 2 + (1.5 - 0) ^ 2))
          (Real.sqrt ((2 - 0) ^ 2 + (1.5 - 4) ^ 2)) 5 4 0.1 = some s
      ∧ |s.x - 2| ≤ 0.01 ∧ |s.y - 1.5| ≤ 0.01 ∧ s.residNorm < 1e-6
      ∧ s.success = true := by
  have c625 : Real.sqrt 6.25 = 2.5 := sqrt_eq_of_sq 6.25 2.5 (by norm_num) (by norm_num)
  have he1 : Real.sqrt (((2 : ℝ) - 0) ^ 2 + ((1.5 : ℝ) - 0) ^ 2) = 2.5 := by
    rw [show ((2 : ℝ) - 0) ^ 2 + ((1.5 : ℝ) - 0) ^ 2 = 6.25 by norm_num, c625]
  have he2 : Real.sqrt (((2 : ℝ) - 5) ^ 2 + ((1.5 : ℝ) - 0) ^ 2) = Real.sqrt 11.25 := by
    rw [show ((2 : ℝ) - 5) ^ 2 + ((1.5 : ℝ) - 0) ^ 2 = 11.25 by norm_num]
  have he3 : Real.sqrt (((2 : ℝ) - 0) ^ 2 + ((1.5 : ℝ) - 4) ^ 2) = Real.sqrt 10.25 := by
    rw [show ((2 : ℝ) - 0) ^ 2 + ((1.5 : ℝ) - 4) ^ 2 = 10.25 by norm_num]
  have h41 : (6 : ℝ) ≤ Real.sqrt 41 := by
    rw [show (6 : ℝ) = Real.sqrt 36 from (sqrt_eq_of_sq 36 6 (by norm_num) (by norm_num)).symm]
    exact Real.sqrt_le_sqrt (by norm_num)
  have h1125u : Real.sqrt 11.25 ≤ 4 := by
    rw [show (4 : ℝ) = Real.sqrt 16 from (sqrt_eq_of_sq 16 4 (by norm_num) (by norm_num)).symm]
    exact Real.sqrt_le_sqrt (by norm_num)
  have h1125l : (3 : ℝ) ≤ Real.sqrt 11.25 := by
    rw [show (3 : ℝ) = Real.sqrt 9 from (sqrt_eq_of_sq 9 3 (by norm_num) (by norm_num)).symm]
    exact Real.sqrt_le_sqrt (by norm_num)
  have h1025u : Real.sqrt 10.25 ≤ 4 := by
    rw [show (4 : ℝ) = Real.sqrt 16 from (sqrt_eq_of_sq 16 4 (by norm_num) (by norm_num)).symm]
    exact Real.sqrt_le_sqrt (by norm_num)
  have h1025l : (3 : ℝ) ≤ Real.sqrt 10.25 := by
    rw [show (3 : ℝ) = Real.sqrt 9 from (sqrt_eq_of_sq 9 3 (by norm_num) (by norm_num)).symm]
    exact Real.sqrt_le_sqrt (by norm_num)
  have hsan : sanitize_distances [2.5, Real.sqrt 11.25, Real.sqrt 10.25] (Real.sqrt 41)
      = [2.5, Real.sqrt 11.25, Real.sqrt 10.25] := by
    unfold sanitize_distances
    simp only [List.map_cons, List.map_nil]
    rw [max_eq_left (by norm_num : (0.05 : ℝ) ≤ 2.5), min_eq_left (by linarith),
      max_eq_left (by linarith), min_eq_left (by linarith),
      max_eq_left (by linarith), min_eq_left (by linarith)]
  have hsq2 : Real.sqrt 11.25 ^ 2 = 11.25 := Real.sq_sqrt (by norm_num)
  have hsq3 : Real.sqrt 10.25 ^ 2 = 10.25 := Real.sq_sqrt (by norm_num)
  have hl10 : lstsq [((10 : ℝ), (0 : ℝ)), (0, 8)] [20, 12] = (2, 1.5, 2) := by
    unfold lstsq
    norm_num
  have hresid : resid_norm [((0 : ℝ), (0 : ℝ)), (5, 0), (0, 4)]
      [2.5, Real.sqrt 11.25, Real.sqrt 10.25] 2 1.5 = 0 := by
    have g1 : Real.sqrt (((0 : ℝ) - 2) ^ 2 + ((0 : ℝ) - 1.5) ^ 2) = 2.5 := by
      rw [show ((0 : ℝ) - 2) ^ 2 + ((0 : ℝ) - 1.5) ^ 2 = 6.25 by norm_num, c625]
    have g2 : Real.sqrt (((5 : ℝ) - 2) ^ 2 + ((0 : ℝ) - 1.5) ^ 2) = Real.sqrt 11.25 := by
      rw [show ((5 : ℝ) - 2) ^ 2 + ((0 : ℝ) - 1.5) ^ 2 = 11.25 by norm_num]
    have g3 : Real.sqrt (((0 : ℝ) - 2) ^ 2 + ((4 : ℝ) - 1.5) ^ 2) = Real.sqrt 10.25 := by
      rw [show ((0 : ℝ) - 2) ^ 2 + ((4 : ℝ) - 1.5) ^ 2 = 10.25 by norm_num]
    unfold resid_norm est_dists
    simp only [List.map_cons, List.map_nil, List.zip_cons_cons, List.zip_nil_right,
      List.sum_cons, List.sum_nil]
    rw [g1, g2, g3]
    simp [Real.sqrt_zero]
  have hmls : multilateration_least_squares [((0 : ℝ), (0 : ℝ)), (5, 0), (0, 4)]
      [2.5, Real.sqrt 11.25, Real.sqrt 10.25] none = .ok ⟨2, 1.5, 0, true⟩ := by
    rw [mls_three_eval]
    dsimp only
    rw [hsq2, hsq3]
    rw [show [((2 : ℝ) * (5 - 0), (2 : ℝ) * (0 - 0)), ((2 : ℝ) * (0 - 0), (2 : ℝ) * (4 - 0))]
        = [((10 : ℝ), (0 : ℝ)), ((0 : ℝ), (8 : ℝ))] by norm_num [Prod.ext_iff]]
    rw [show [((2.5 : ℝ) ^ 2 - 11.25) - ((0 : ℝ) ^ 2 - 5 ^ 2) - ((0 : ℝ) ^ 2 - 0 ^ 2),
          ((2.5 : ℝ) ^ 2 - 10.25) - ((0 : ℝ) ^ 2 - 0 ^ 2) - ((0 : ℝ) ^ 2 - 4 ^ 2)]
        = [(20 : ℝ), (12 : ℝ)] by norm_num]
    rw [hl10]
    dsimp only
    rw [hresid]
    rfl
  have hmax : (0.5 : ℝ) ≤ max 0.5 (0.1 * Real.sqrt 41) := le_max_left _ _
  have hcond : ¬ (((⟨2, 1.5, 0, true⟩ : SolveResult).success = false)
      ∨ ((⟨2, 1.5, 0, true⟩ : SolveResult).residNorm
          > max 0.5 (0.1 * Real.sqrt 41))) := by
    rintro (h | h)
    · simp at h
    · simp only [gt_iff_lt] at h
      linarith
  have hplot3 : AppPlot3.estimate_position_from_rssi 2.5 (Real.sqrt 11.25)
      (Real.sqrt 10.25) 5 4 0.1 = some ⟨2, 1.5, 0, true⟩ := by
    rw [AppPlot3.estimate_eq_p3,
      show Real.sqrt ((5 : ℝ) ^ 2 + 4 ^ 2) = Real.sqrt 41 by norm_num, hsan,
      solve_with_fallback_of_ok _ _ _ _ _ hmls, if_neg hcond]
  have hplot2 : AppPlot2.estimate_position_from_rssi 2.5 (Real.sqrt 11.25)
      (Real.sqrt 10.25) 5 4 0.1 = some ⟨2, 1.5, 0, true⟩ := by
    rw [AppPlot2.estimate_eq_p2,
      show Real.sqrt ((5 : ℝ) ^ 2 + 4 ^ 2) = Real.sqrt 41 by norm_num, hsan,
      solve_with_fallback_keep_better_of_ok _ _ _ _ _ hmls,
      if_neg (by simp : ¬ ((⟨2, 1.5, 0, true⟩ : SolveResult).success = false))]
    rw [if_neg (fun h => hcond (Or.inr h))]
  refine ⟨⟨2, 1.5, 0, true⟩, ?_, ?_, by norm_num, by norm_num, by norm_num, rfl⟩
  · rw [he1, he2, he3]
    exact hplot3
  · rw [he1, he2, he3]
    exact hplot2

/-! ## Median filter and exponential smoother

`MedianFilter` and `ExponentialSmoother` from `app_plot_3.py` (lines
95-114; `app_plot_2.py` and `appplot.py` carry the same `MedianFilter`).
`statistics.median` sorts the window and takes the middle element, or the
mean of the two middle elements for an even count. -/

def insertSorted (x : ℚ) : List ℚ → List ℚ
  | [] => [x]
  | y :: ys => if x ≤ y then x :: y :: ys else y :: insertSorted x ys

def sortListQ (l : List ℚ) : List ℚ := l.foldr insertSorted []

/-- `statistics.median` (raises on an empty list in Python; the handlers
only call it on nonempty windows, so the 0 default is unreachable). -/
def median (l : List ℚ) : ℚ :=
  let s := sortListQ l
  let n := s.length
  if n % 2 = 1 then s.getD (n / 2) 0
  else (s.getD (n / 2 - 1) 0 + s.getD (n / 2) 0) / 2

structure MedianFilter where
  window_size : ℕ
  window : List ℚ
deriving DecidableEq

def MedianFilter.update (f : MedianFilter) (value : ℚ) : MedianFilter × ℚ :=
  let w := f.window ++ [value]
  let w2 := if f.window_size < w.length then w.tail else w
  (⟨f.window_size, w2⟩, median w2)

structure ExponentialSmoother (K : Type) where
  alpha : K
  last : Option K
deriving DecidableEq

def ExponentialSmoother.update {K : Type} [Field K] (f : ExponentialSmoother K)
    (value : K) : ExponentialSmoother K × K :=
  match f.last with
  | none => ({ f with last := some value }, value)
  | some prev =>
    let s2 := f.alpha * value + (1 - f.alpha) * prev
    ({ f with last := some s2 }, s2)

/-! ## The WebSocket sample handler of app_plot_3.py

`handle_rssi_data` (lines 435-511) with the module-level persistent filter
chain (lines 116-124) and room constants D1 = 4.8, D2 = 6.6 (lines
137-138).  The calibration pair `(A, n)` that `rssi_to_distance` obtains
from `curve_fit` is a parameter.  Payload fields are rounded to two
decimals as in the source (`round(_, 2)`; Python's round differs from the
mathematical one only at exact ties, which never occur here); the degraded
payload carries the raw last-known values unrounded and has no
distance/position fields. -/

namespace AppPlot3

structure Sample where
  rssi1 : Option ℚ
  rssi2 : Option ℚ
  rssi3 : Option ℚ

structure PipelineState where
  esp : EspData
  ma_filter_x : MedianFilter
  ma_filter_y : MedianFilter
  ma_filter_z : MedianFilter
  smooth_x : ExponentialSmoother ℚ
  smooth_y : ExponentialSmoother ℚ
  smooth_z : ExponentialSmoother ℚ
  coord_smooth_l : ExponentialSmoother ℝ
  coord_smooth_m : ExponentialSmoother ℝ

inductive Payload where
  | degraded (rssi1 rssi2 rssi3 : ℚ)
  | full (rssi1 rssi2 rssi3 : ℚ) (x y z l m : ℝ)

noncomputable def roomD1 : ℝ := 4.8

noncomputable def roomD2 : ℝ := 6.6

def updateEntry (e : AnchorEntry) (v : Option ℚ) (now : ℚ) : AnchorEntry :=
  match v with
  | some q => ⟨e.value ++ [q], now⟩
  | none => e

def applySample (esp : EspData) (s : Sample) (now : ℚ) : EspData :=
  ⟨updateEntry esp.rssi1 s.rssi1 now, updateEntry esp.rssi2 s.rssi2 now,
   updateEntry esp.rssi3 s.rssi3 now⟩

def freshEntry (e : AnchorEntry) (now : ℚ) : Bool :=
  !e.value.isEmpty && decide (now - e.timestamp < 2)

/-- The sync gate (SYNC_TIMEOUT = 2): every anchor has a stored value and
its last update is less than 2 s old. -/
def allFresh (esp : EspData) (now : ℚ) : Bool :=
  freshEntry esp.rssi1 now && freshEntry esp.rssi2 now && freshEntry esp.rssi3 now

/-- `value[-1]` with the `except IndexError` default 0.0 of the degraded
branch. -/
def lastOrZero (e : AnchorEntry) : ℚ := e.value.getLast?.getD 0

def round2q (q : ℚ) : ℚ := (round (100 * q) : ℤ) / 100

noncomputable def round2r (x : ℝ) : ℝ := ((round (100 * x) : ℤ) : ℝ) / 100

noncomputable def handle_rssi_data (A n : ℝ) (st : PipelineState) (data : Sample)
    (current_time : ℚ) : PipelineState × Payload :=
  let esp2 := applySample st.esp data current_time
  if allFresh esp2 current_time then
    let r1 := lastOrZero esp2.rssi1
    let r2 := lastOrZero esp2.rssi2
    let r3 := lastOrZero esp2.rssi3
    let fx := st.ma_filter_x.update r1
    let sx := st.smooth_x.update fx.2
    let fy := st.ma_filter_y.update r2
    let sy := st.smooth_y.update fy.2
    let fz := st.ma_filter_z.update r3
    let sz := st.smooth_z.update fz.2
    let x := rssi_to_distance (sx.2 : ℝ) A n
    let y := rssi_to_distance (sy.2 : ℝ) A n
    let z := rssi_to_distance (sz.2 : ℝ) A n
    let est := (estimate_position_from_rssi x y z roomD1 roomD2 0.1).getD ⟨0, 0, 0, false⟩
    let cl := st.coord_smooth_l.update est.x
    let cm := st.coord_smooth_m.update est.y
    ({ esp := esp2, ma_filter_x := fx.1, ma_filter_y := fy.1, ma_filter_z := fz.1,
       smooth_x := sx.1, smooth_y := sy.1, smooth_z := sz.1,
       coord_smooth_l := cl.1, coord_smooth_m := cm.1 },
     .full (round2q r1) (round2q r2) (round2q r3)
       (round2r x) (round2r y) (round2r z) (round2r cl.2) (round2r cm.2))
  else
    ({ st with esp := esp2 },
     .degraded (lastOrZero esp2.rssi1) (lastOrZero esp2.rssi2)
       (lastOrZero esp2.rssi3))

/-- The module-level state at process start: empty `esp_data`, the three
`MedianFilter(window_size=7)`, the three `ExponentialSmoother(alpha=0.25)`
and the two coordinate smoothers with alpha 0.2. -/
noncomputable def initialState : PipelineState :=
  { esp := ⟨⟨[], 0⟩, ⟨[], 0⟩, ⟨[], 0⟩⟩,
    ma_filter_x := ⟨7, []⟩, ma_filter_y := ⟨7, []⟩, ma_filter_z := ⟨7, []⟩,
    smooth_x := ⟨0.25, none⟩, smooth_y := ⟨0.25, none⟩, smooth_z := ⟨0.25, none⟩,
    coord_smooth_l := ⟨(0.2 : ℝ), none⟩, coord_smooth_m := ⟨(0.2 : ℝ), none⟩ }

end AppPlot3

/-- C4: if, at the moment the sync gate is evaluated while handling an
inbound sample (after the sample's own values and timestamps have been
stored), some anchor has no stored value or its last update is at least
syncTimeout = 2 s old, then `handle_rssi_data` of `app_plot_3.py` emits the
degraded payload carrying only the raw last-known RSSI values (no distance
or position fields, by the shape of the `degraded` constructor) and does
not invoke the filtering, distance-estimation or position-solving stages:
every filter and smoother state is left exactly as it was. -/
theorem sync_gate_degraded (A n : ℝ) (st : AppPlot3.PipelineState)
    (data : AppPlot3.Sample) (now : ℚ)
    (hstale : AppPlot3.allFresh (AppPlot3.applySample st.esp data now) now = false) :
    AppPlot3.handle_rssi_data A n st data now
      = ({ st with esp := AppPlot3.applySample st.esp data now },
         .degraded (AppPlot3.lastOrZero (AppPlot3.applySample st.esp data now).rssi1)
           (AppPlot3.lastOrZero (AppPlot3.applySample st.esp data now).rssi2)
           (AppPlot3.lastOrZero (AppPlot3.applySample st.esp data now).rssi3))
    ∧ (AppPlot3.handle_rssi_data A n st data now).1.ma_filter_x = st.ma_filter_x
    ∧ (AppPlot3.handle_rssi_data A n st data now).1.ma_filter_y = st.ma_filter_y
    ∧ (AppPlot3.handle_rssi_data A n st data now).1.ma_filter_z = st.ma_filter_z
    ∧ (AppPlot3.handle_rssi_data A n st data now).1.smooth_x = st.smooth_x
    ∧ (AppPlot3.handle_rssi_data A n st data now).1.smooth_y = st.smooth_y
    ∧ (AppPlot3.handle_rssi_data A n st data now).1.smooth_z = st.smooth_z
    ∧ (AppPlot3.handle_rssi_data A n st data now).1.coord_smooth_l = st.coord_smooth_l
    ∧ (AppPlot3.handle_rssi_data A n st data now).1.coord_smooth_m = st.coord_smooth_m := by
  have hmain : AppPlot3.handle_rssi_data A n st data now
      = ({ st with esp := AppPlot3.applySample st.esp data now },
         .degraded (AppPlot3.lastOrZero (AppPlot3.applySample st.esp data now).rssi1)
           (AppPlot3.lastOrZero (AppPlot3.applySample st.esp data now).rssi2)
           (AppPlot3.lastOrZero (AppPlot3.applySample st.esp data now).rssi3)) := by
    simp only [AppPlot3.handle_rssi_data, hstale, Bool.false_eq_true, if_false]
  refine ⟨hmain, ?_, ?_, ?_, ?_, ?_, ?_, ?_, ?_⟩ <;> rw [hmain]

/-- Witness for C4: from the initial state, a sample carrying only anchor 1
leaves anchors 2 and 3 without values, so the handler emits the degraded
payload (-50, 0, 0) and the anchor-1 median filter is left untouched. -/
theorem sync_gate_degraded_witness :
    (AppPlot3.handle_rssi_data (-59) 2 AppPlot3.initialState
        ⟨some (-50), none, none⟩ 10).2
      = .degraded (-50) 0 0
    ∧ (AppPlot3.handle_rssi_data (-59) 2 AppPlot3.initialState
        ⟨some (-50), none, none⟩ 10).1.ma_filter_x
      = AppPlot3.initialState.ma_filter_x := by
  have h := sync_gate_degraded (-59) 2 AppPlot3.initialState
    ⟨some (-50), none, none⟩ 10
    (by simp [AppPlot3.allFresh, AppPlot3.freshEntry, AppPlot3.applySample,
      AppPlot3.updateEntry, AppPlot3.initialState])
  constructor
  · rw [h.1]
    simp [AppPlot3.lastOrZero, AppPlot3.applySample, AppPlot3.updateEntry,
      AppPlot3.initialState]
  · exact h.2.1

namespace App

/-- The filtering stage of `index` in `app.py` (lines 96-102): a single
`MovingAverageFilter()` is constructed fresh inside the request handler on
every request and reused across the three anchors of that request; the
function has no state parameter because the code keeps none across
requests. -/
def index_filter_stage (r1 r2 r3 : ℚ) : ℚ × ℚ × ℚ :=
  let ma_filter : MovingAverageFilter := ⟨5, []⟩
  let u1 := ma_filter.update r1
  let u2 := u1.1.update r2
  let u3 := u2.1.update r3
  (u1.2, u2.2, u3.2)

end App

namespace AppPlot2

/-- The filtering stage of `handle_rssi_data` in `app_plot_2.py` (lines
470-481): three `MedianFilter()` instances are constructed fresh on every
call, one per anchor, so each update sees a singleton window; no state
parameter because none survives the call. -/
def handler_filter_stage (r1 r2 r3 : ℚ) : ℚ × ℚ × ℚ :=
  (((MedianFilter.mk 5 []).update r1).2, ((MedianFilter.mk 5 []).update r2).2,
   ((MedianFilter.mk 5 []).update r3).2)

end AppPlot2

/-- Modelled from the spec: section 4.2 SignalFilter state handling —
"Each anchor owns one filter instance ... with independent state; state
persists across calls for the lifetime of the process — it is not
re-created per request."  Three independent `MovingAverageFilter`
instances are threaded over the inbound samples and the filtered triple of
each sample is recorded; used to compare against the per-request filters
of the code. -/
def spec_persistent_filtered (size : ℕ) (samples : List (ℚ × ℚ × ℚ)) :
    List (ℚ × ℚ × ℚ) :=
  (samples.foldl
    (fun (acc : (MovingAverageFilter × MovingAverageFilter × MovingAverageFilter)
        × List (ℚ × ℚ × ℚ)) s =>
      let u1 := acc.1.1.update s.1
      let u2 := acc.1.2.1.update s.2.1
      let u3 := acc.1.2.2.update s.2.2
      ((u1.1, u2.1, u3.1), acc.2 ++ [(u1.2, u2.2, u3.2)]))
    ((⟨size, []⟩, ⟨size, []⟩, ⟨size, []⟩), [])).2

/-- C6 counterexample: in `app.py` (cited lines 96-102) the filter is
constructed fresh inside the request handler, so the filter state used when
a sample is handled is that of a freshly constructed filter, not the state
left behind by the previous sample.  On the sample sequence (-50,-40,-30),
(-60,-40,-30): the per-anchor persistent filters mandated by the claim
yield the filtered value -55 for anchor 1 at the second sample, while
`app.py` yields -60 (and, sharing the one instance across anchors, -50
instead of -40 for anchor 2 even within a single request);
`app_plot_2.py`'s fresh median filters (cited lines 470-481) return the
raw sample unchanged. -/
theorem filter_fresh_per_request_cex :
    (App.index_filter_stage (-60) (-40) (-30)).1 = -60
    ∧ (App.index_filter_stage (-60) (-40) (-30)).2.1 = -50
    ∧ spec_persistent_filtered 5 [(-50, -40, -30), (-60, -40, -30)]
      = [(-50, -40, -30), (-55, -40, -30)]
    ∧ AppPlot2.handler_filter_stage (-60) (-40) (-30) = (-60, -40, -30)
    ∧ ((-60 : ℚ) ≠ -55) := by
  refine ⟨?_, ?_, ?_, ?_, by norm_num⟩
  · norm_num [App.index_filter_stage, MovingAverageFilter.update, List.sum_cons,
      List.sum_nil]
  · norm_num [App.index_filter_stage, MovingAverageFilter.update, List.sum_cons,
      List.sum_nil]
  · norm_num [spec_persistent_filtered, MovingAverageFilter.update, List.foldl_cons,
      List.foldl_nil, List.sum_cons, List.sum_nil]
  · norm_num [AppPlot2.handler_filter_stage, MedianFilter.update, median, sortListQ,
      insertSorted, List.foldr_cons, List.foldr_nil, List.getD]

theorem AppPlot3.handle_esp (A n : ℝ) (st : AppPlot3.PipelineState)
    (data : AppPlot3.Sample) (now : ℚ) :
    (AppPlot3.handle_rssi_data A n st data now).1.esp
      = AppPlot3.applySample st.esp data now := by
  simp only [AppPlot3.handle_rssi_data]
  by_cases h : AppPlot3.allFresh (AppPlot3.applySample st.esp data now) now = true
  · rw [if_pos h]
  · rw [if_neg h]

theorem AppPlot3.handle_ma_filter_x (A n : ℝ) (st : AppPlot3.PipelineState)
    (data : AppPlot3.Sample) (now : ℚ) :
    (AppPlot3.handle_rssi_data A n st data now).1.ma_filter_x
      = if AppPlot3.allFresh (AppPlot3.applySample st.esp data now) now
        then (st.ma_filter_x.update
            (AppPlot3.lastOrZero (AppPlot3.applySample st.esp data now).rssi1)).1
        else st.ma_filter_x := by
  simp only [AppPlot3.handle_rssi_data]
  by_cases h : AppPlot3.allFresh (AppPlot3.applySample st.esp data now) now = true
  · rw [if_pos h, if_pos h]
  · rw [if_neg h, if_neg h]

theorem AppPlot3.handle_smooth_x (A n : ℝ) (st : AppPlot3.PipelineState)
    (data : AppPlot3.Sample) (now : ℚ) :
    (AppPlot3.handle_rssi_data A n st data now).1.smooth_x
      = if AppPlot3.allFresh (AppPlot3.applySample st.esp data now) now
        then (st.smooth_x.update
            ((st.ma_filter_x.update
              (AppPlot3.lastOrZero (AppPlot3.applySample st.esp data now).rssi1)).2)).1
        else st.smooth_x := by
  simp only [AppPlot3.handle_rssi_data]
  by_cases h : AppPlot3.allFresh (AppPlot3.applySample st.esp data now) now = true
  · rw [if_pos h, if_pos h]
  · rw [if_neg h, if_neg h]

/-- C6 (amended): in `app_plot_3.py` the per-anchor filter chains are
module-level singletons whose state persists across inbound samples:
`handle_rssi_data` updates the incoming state's filter and writes the
result back, so the filter state used when processing sample k+1 is the
state left behind by sample k (concretely, after the samples (-50,...) and
(-60,...) anchor 1's median window is [-50, -60] and its smoother state
-51.25 reflects both samples).  In `app.py` (and `appws.py`) a single
`MovingAverageFilter` is constructed fresh per request and shared by the
three anchors — the first filtered value is always the raw sample and the
second anchor's value mixes in the first anchor's — and in
`app_plot_2.py`'s handler the three `MedianFilter`s are fresh per call, so
the filtered triple is the raw triple: in those variants no filter state
persists between samples. -/
theorem filter_persistence_amended :
    (∀ (A n : ℝ) (st : AppPlot3.PipelineState) (data : AppPlot3.Sample) (now : ℚ),
      (AppPlot3.handle_rssi_data A n st data now).1.ma_filter_x
        = if AppPlot3.allFresh (AppPlot3.applySample st.esp data now) now
          then (st.ma_filter_x.update
              (AppPlot3.lastOrZero (AppPlot3.applySample st.esp data now).rssi1)).1
          else st.ma_filter_x)
    ∧ ((AppPlot3.handle_rssi_data (-59) 2
          (AppPlot3.handle_rssi_data (-59) 2 AppPlot3.initialState
            ⟨some (-50), some (-40), some (-30)⟩ 0).1
          ⟨some (-60), some (-40), some (-30)⟩ 1).1.ma_filter_x.window
        = [-50, -60])
    ∧ ((AppPlot3.handle_rssi_data (-59) 2
          (AppPlot3.handle_rssi_data (-59) 2 AppPlot3.initialState
            ⟨some (-50), some (-40), some (-30)⟩ 0).1
          ⟨some (-60), some (-40), some (-30)⟩ 1).1.smooth_x.last
        = some (-51.25))
    ∧ (∀ r1 r2 r3 : ℚ, (App.index_filter_stage r1 r2 r3).1 = r1
        ∧ (App.index_filter_stage r1 r2 r3).2.1 = (r1 + r2) / 2)
    ∧ (∀ r1 r2 r3 : ℚ, AppPlot2.handler_filter_stage r1 r2 r3 = (r1, r2, r3)) := by
  have hstep1esp : (AppPlot3.handle_rssi_data (-59) 2 AppPlot3.initialState
      ⟨some (-50), some (-40), some (-30)⟩ 0).1.esp
      = ⟨⟨[-50], 0⟩, ⟨[-40], 0⟩, ⟨[-30], 0⟩⟩ := by
    rw [AppPlot3.handle_esp]
    norm_num [AppPlot3.applySample, AppPlot3.updateEntry, AppPlot3.initialState]
  have hgate1 : AppPlot3.allFresh (AppPlot3.applySample AppPlot3.initialState.esp
      ⟨some (-50), some (-40), some (-30)⟩ 0) 0 = true := by
    norm_num [AppPlot3.allFresh, AppPlot3.freshEntry, AppPlot3.applySample,
      AppPlot3.updateEntry, AppPlot3.initialState]
  have hmf1 : (AppPlot3.handle_rssi_data (-59) 2 AppPlot3.initialState
      ⟨some (-50), some (-40), some (-30)⟩ 0).1.ma_filter_x = ⟨7, [-50]⟩ := by
    rw [AppPlot3.handle_ma_filter_x, if_pos hgate1]
    norm_num [AppPlot3.lastOrZero, AppPlot3.applySample, AppPlot3.updateEntry,
      AppPlot3.initialState, MedianFilter.update]
  have hsm1 : (AppPlot3.handle_rssi_data (-59) 2 AppPlot3.initialState
      ⟨some (-50), some (-40), some (-30)⟩ 0).1.smooth_x = ⟨0.25, some (-50)⟩ := by
    rw [AppPlot3.handle_smooth_x, if_pos hgate1]
    norm_num [AppPlot3.lastOrZero, AppPlot3.applySample, AppPlot3.updateEntry,
      AppPlot3.initialState, MedianFilter.update, ExponentialSmoother.update, median,
      sortListQ, insertSorted, List.getD]
  have hgate2 : AppPlot3.allFresh (AppPlot3.applySample
      (AppPlot3.handle_rssi_data (-59) 2 AppPlot3.initialState
        ⟨some (-50), some (-40), some (-30)⟩ 0).1.esp
      ⟨some (-60), some (-40), some (-30)⟩ 1) 1 = true := by
    rw [hstep1esp]
    norm_num [AppPlot3.allFresh, AppPlot3.freshEntry, AppPlot3.applySample,
      AppPlot3.updateEntry]
  have hlast2 : AppPlot3.lastOrZero (AppPlot3.applySample
      (AppPlot3.handle_rssi_data (-59) 2 AppPlot3.initialState
        ⟨some (-50), some (-40), some (-30)⟩ 0).1.esp
      ⟨some (-60), some (-40), some (-30)⟩ 1).rssi1 = -60 := by
    rw [hstep1esp]
    norm_num [AppPlot3.lastOrZero, AppPlot3.applySample, AppPlot3.updateEntry]
  refine ⟨?_, ?_, ?_, ?_, ?_⟩
  · intro A n st data now
    exact AppPlot3.handle_ma_filter_x A n st data now
  · rw [AppPlot3.handle_ma_filter_x, if_pos hgate2, hmf1, hlast2]
    norm_num [MedianFilter.update]
  · rw [AppPlot3.handle_smooth_x, if_pos hgate2, hsm1, hmf1, hlast2]
    norm_num [MedianFilter.update, ExponentialSmoother.update, median, sortListQ,
      insertSorted, List.getD]
  · intro r1 r2 r3
    constructor
    · norm_num [App.index_filter_stage, MovingAverageFilter.update, List.sum_cons,
        List.sum_nil]
    · norm_num [App.index_filter_stage, MovingAverageFilter.update, List.sum_cons,
        List.sum_nil]
  · intro r1 r2 r3
    norm_num [AppPlot2.handler_filter_stage, MedianFilter.update, median, sortListQ,
      insertSorted, List.foldr_cons, List.foldr_nil, List.getD]
